import Mathlib

/-!
# InfoBox geometry layout engine (XCSoar, `src/InfoBoxes/InfoBoxLayout.cpp`)

A shallow embedding of the geometry selector (`ValidateGeometry`,
`LoadGeometryFromProfile`, `Init`) and of the layout calculator
(`CalcInfoBoxSizes`, the four tiling primitives and `Calculate`), followed by
theorems about them.

Conventions of the embedding.

* A `Geometry` value is its raw ordinal, a natural number: the C++ code casts a
  stored `unsigned` to the enumeration and compares `(unsigned)geometry` with
  the size of the count table, so values outside the enumerators are inputs
  the code expects.
* `unsigned width, height` are natural numbers; they are only compared.
* `int` coordinates are integers.  `Calculate` and the tiling primitives
  compute in the integers; `Calculate32` and its primitives are the same code
  with every `int` sum, difference and product reduced to 32 bits, as the
  build does.  The two agree while no value leaves the `int` range
  (`Calculate32_eq_Calculate`); statements that need the edges to stay in
  range are made of `Calculate32` under `NoOverflow`.
* `double` arithmetic (the constants `CONTROLHEIGHTRATIO`, `1.3`, `1.44`,
  `0.2`) is exact rational arithmetic; the conversion of a `double` to an
  integer discards the fractional part, as in C++.
* `CONTROLHEIGHTRATIO` comes from `Sizes.h`, which is not part of the sources;
  it is the parameter `chr` of the functions that use it.
* `assert` and the table lookup `geometry_counts[geometry]` are the only
  places where `Calculate` can fail; it returns `Except CalcError Layout`.
* The writes into `positions` are also listed, store by store in the order of
  the code (`MakeTopRowStores`, ..., `CalculateStores`), so that statements
  about how often a slot is written can be made; the layouts returned are the
  replay of these lists.
-/

namespace InfoBoxLayout

/-- The Windows `RECT`: integer edges `left`, `top`, `right`, `bottom`. -/
structure RECT where
  left : Int
  top : Int
  right : Int
  bottom : Int
deriving DecidableEq, Repr

/-- A geometry is handled through its ordinal. -/
abbrev Geometry := Nat

/-- Modelled from the spec: the enumerators of `Geometry` are declared in
`InfoBoxes/InfoBoxLayout.hpp`, which is not part of the sources.  Their
ordinals follow the count table `geometry_counts` and the assertions of
`Calculate` (`ibGNav` has 9 tiles, `ibSquare` 5, `ibRight12` 12; the default
`ibTop4Bottom4` comes first). -/
@[match_pattern] abbrev ibTop4Bottom4 : Geometry := 0
/-- Second enumerator: both rows along the bottom. -/
@[match_pattern] abbrev ibBottom8 : Geometry := 1
/-- Third enumerator: both rows along the top. -/
@[match_pattern] abbrev ibTop8 : Geometry := 2
/-- Fourth enumerator: one column on each side. -/
@[match_pattern] abbrev ibLeft4Right4 : Geometry := 3
/-- Fifth enumerator: both columns on the left. -/
@[match_pattern] abbrev ibLeft8 : Geometry := 4
/-- Sixth enumerator: both columns on the right. -/
@[match_pattern] abbrev ibRight8 : Geometry := 5
/-- Seventh enumerator: the GNav arrangement, 9 tiles. -/
@[match_pattern] abbrev ibGNav : Geometry := 6
/-- Eighth enumerator: 5 tiles in one column, for square screens. -/
@[match_pattern] abbrev ibSquare : Geometry := 7
/-- Ninth enumerator: 12 tiles in two columns on the right. -/
@[match_pattern] abbrev ibRight12 : Geometry := 8

/-- The number of info boxes in each geometry. -/
def geometry_counts : List Nat :=
  [8, 8, 8, 8, 8, 8,
   9, 5, 12]

/-- Modelled from the spec: `InfoBoxPanelConfig::MAX_INFOBOXES`, declared
outside the sources; the spec gives the fixed maximum of tiles as 12. -/
def MAX_INFOBOXES : Nat := 12

/-- Embedding of `ValidateGeometry(geometry, width, height)`. -/
def ValidateGeometry (geometry : Geometry) (width height : Nat) : Geometry :=
  let geometry :=
    if geometry ≥ geometry_counts.length then
      /- out of range -/
      ibTop4Bottom4
    else geometry
  if width > height then
    /- landscape -/
    match geometry with
    | ibTop4Bottom4 => ibLeft4Right4
    | ibBottom8 => ibRight8
    | ibTop8 => ibLeft8
    | ibLeft4Right4 => geometry
    | ibLeft8 => geometry
    | ibRight8 => geometry
    | ibGNav => geometry
    | ibSquare => ibRight8
    | ibRight12 => geometry
    | _ => geometry
  else if width = height then
    /- square -/
    ibSquare
  else
    /- portrait -/
    match geometry with
    | ibTop4Bottom4 => geometry
    | ibBottom8 => geometry
    | ibTop8 => geometry
    | ibLeft4Right4 => ibTop4Bottom4
    | ibLeft8 => ibTop8
    | ibRight8 => ibBottom8
    | ibGNav => ibBottom8
    | ibSquare => ibBottom8
    | ibRight12 => ibBottom8
    | _ => geometry

/-- Embedding of `LoadGeometryFromProfile(width, height)`.  The profile is the optional
stored value: `Profile::Get` either fails (`none`) or yields `tmp`, which is
cast to `Geometry` unchanged. -/
def LoadGeometryFromProfile (profile : Option Nat) (width height : Nat) : Geometry :=
  let geometry : Geometry :=
    match profile with
    | some tmp => tmp
    | none => ibTop4Bottom4
  ValidateGeometry geometry width height

/-- Conversion of an `int` to `unsigned` (32 bits). -/
def toUnsigned (i : Int) : Nat := (i % 2 ^ 32).toNat

/-- Embedding of `Init(rc)`: the value assigned to the global `InfoBoxGeometry`. -/
def Init (profile : Option Nat) (rc : RECT) : Geometry :=
  LoadGeometryFromProfile profile (toUnsigned (rc.right - rc.left))
    (toUnsigned (rc.bottom - rc.top))

/-- The result of `Calculate`.  `positions` is the array
`positions[MAX_INFOBOXES]`; a slot that was never written is `none`. -/
structure Layout where
  control_width : Int
  control_height : Int
  count : Nat
  positions : List (Option RECT)
  remaining : RECT
deriving DecidableEq, Repr

/-- The local `Layout layout;` of `Calculate` before anything is stored in it:
no slot of `positions` is written.  The numeric fields are all assigned
before they are read. -/
def Layout.uninitialised : Layout :=
  { control_width := 0
    control_height := 0
    count := 0
    positions := List.replicate MAX_INFOBOXES none
    remaining := ⟨0, 0, 0, 0⟩ }

/-- The store `*p = ...` into slot `p` of `positions`. -/
def Layout.store (layout : Layout) (p : Nat) (r : RECT) : Layout :=
  { layout with positions := layout.positions.set p (some r) }

/-- The tile in slot `i` of `positions`, when that slot was written. -/
def Layout.tile (layout : Layout) (i : Nat) : Option RECT :=
  layout.positions.getD i none

/-- The ways `Calculate` can fail. -/
inductive CalcError where
  | index_out_of_bounds
  | assertion_failed
deriving DecidableEq, Repr

/-- Conversion of a `double` to an integer: the fractional part is
discarded. -/
def truncate (x : ℚ) : Int :=
  if 0 ≤ x then ⌊x⌋ else ⌈x⌉

/-- The loop of `MakeTopRow`: `n` is `end - p`, the number of iterations
left. -/
def MakeTopRowLoop (top bottom : Int) : Nat → Layout → Nat → Int → Layout
  | 0, layout, _, _ => layout
  | n + 1, layout, p, left =>
    let left1 := left + layout.control_width
    MakeTopRowLoop top bottom n (layout.store p ⟨left, top, left1, bottom⟩) (p + 1) left1

/-- Embedding of `MakeTopRow(layout, p, n, left, top)`; `p` is the index of the first slot.
Returns the layout with the slots written and the returned `bottom`. -/
def MakeTopRow (layout : Layout) (p n : Nat) (left top : Int) : Layout × Int :=
  let bottom := top + layout.control_height
  (MakeTopRowLoop top bottom n layout p left, bottom)

/-- Embedding of `MakeBottomRow(layout, p, n, left, bottom)`. -/
def MakeBottomRow (layout : Layout) (p n : Nat) (left bottom : Int) : Layout × Int :=
  let top := bottom - layout.control_height
  ((MakeTopRow layout p n left top).1, top)

/-- The loop of `MakeLeftColumn`: `n` is `end - p`. -/
def MakeLeftColumnLoop (left right : Int) : Nat → Layout → Nat → Int → Layout
  | 0, layout, _, _ => layout
  | n + 1, layout, p, top =>
    let top1 := top + layout.control_height
    MakeLeftColumnLoop left right n (layout.store p ⟨left, top, right, top1⟩) (p + 1) top1

/-- Embedding of `MakeLeftColumn(layout, p, n, left, top)`, computed in the
integers; `MakeLeftColumn32` is the same code with 32-bit `int`. -/
def MakeLeftColumn (layout : Layout) (p n : Nat) (left top : Int) : Layout × Int :=
  let right := left + layout.control_width
  (MakeLeftColumnLoop left right n layout p top, right)

/-- Embedding of `MakeRightColumn(layout, p, n, right, top)`, computed in the
integers; `MakeRightColumn32` is the same code with 32-bit `int`. -/
def MakeRightColumn (layout : Layout) (p n : Nat) (right top : Int) : Layout × Int :=
  let left := right - layout.control_width
  ((MakeLeftColumn layout p n left top).1, left)

/-- Embedding of `CalcInfoBoxSizes(layout, rc, geometry)`.  Integer division is the C++
one (towards zero); an expression with a `double` operand is computed in the
rationals and truncated on assignment. -/
def CalcInfoBoxSizes (chr : ℚ) (layout : Layout) (rc : RECT) (geometry : Geometry) : Layout :=
  match geometry with
  | ibTop4Bottom4 | ibBottom8 | ibTop8 =>
    { layout with
      control_width := (2 * (rc.right - rc.left)).tdiv layout.count
      control_height := truncate (((rc.bottom - rc.top : Int) : ℚ) / chr) }
  | ibLeft4Right4 | ibLeft8 | ibRight8 =>
    { layout with
      control_width := truncate (((rc.right - rc.left : Int) : ℚ) / chr * 1.3)
      control_height := (2 * (rc.bottom - rc.top)).tdiv layout.count }
  | ibGNav | ibRight12 =>
    let control_height := (rc.bottom - rc.top).tdiv 6
    { layout with
      control_height := control_height
      control_width := truncate ((control_height : ℚ) * 1.44) }
  | ibSquare =>
    { layout with
      control_width := truncate (((rc.right - rc.left : Int) : ℚ) * 0.2)
      control_height := (rc.bottom - rc.top).tdiv 5 }
  | _ => layout

/-- The `switch` of `Calculate`: the layout with the tiles stored and the
local `rc` after the consumed edges were moved, or the failure of the
assertion of the selected case. -/
def CalculateSwitch (layout : Layout) (rc : RECT) (geometry : Geometry) :
    Except CalcError (Layout × RECT) :=
  match geometry with
  | ibTop4Bottom4 =>
    let layout := { layout with count := 8 }
    let r1 := MakeTopRow layout 0 4 rc.left rc.top
    let rc := { rc with top := r1.2 }
    let r2 := MakeBottomRow r1.1 4 4 rc.left rc.bottom
    .ok (r2.1, { rc with bottom := r2.2 })
  | ibBottom8 =>
    if layout.count ≠ 8 then .error .assertion_failed else
    let r1 := MakeBottomRow layout 4 4 rc.left rc.bottom
    let rc := { rc with bottom := r1.2 }
    let r2 := MakeBottomRow r1.1 0 4 rc.left rc.bottom
    .ok (r2.1, { rc with bottom := r2.2 })
  | ibTop8 =>
    if layout.count ≠ 8 then .error .assertion_failed else
    let r1 := MakeTopRow layout 0 4 rc.left rc.top
    let rc := { rc with top := r1.2 }
    let r2 := MakeTopRow r1.1 4 4 rc.left rc.top
    .ok (r2.1, { rc with top := r2.2 })
  | ibLeft4Right4 =>
    if layout.count ≠ 8 then .error .assertion_failed else
    let r1 := MakeLeftColumn layout 0 4 rc.left rc.top
    let rc := { rc with left := r1.2 }
    let r2 := MakeRightColumn r1.1 4 4 rc.right rc.top
    .ok (r2.1, { rc with right := r2.2 })
  | ibLeft8 =>
    if layout.count ≠ 8 then .error .assertion_failed else
    let r1 := MakeLeftColumn layout 0 4 rc.left rc.top
    let rc := { rc with left := r1.2 }
    let r2 := MakeLeftColumn r1.1 4 4 rc.left rc.top
    .ok (r2.1, { rc with left := r2.2 })
  | ibRight8 =>
    if layout.count ≠ 8 then .error .assertion_failed else
    let r1 := MakeRightColumn layout 4 4 rc.right rc.top
    let rc := { rc with right := r1.2 }
    let r2 := MakeRightColumn r1.1 0 4 rc.right rc.top
    .ok (r2.1, { rc with right := r2.2 })
  | ibRight12 =>
    if layout.count ≠ 12 then .error .assertion_failed else
    let r1 := MakeRightColumn layout 6 6 rc.right rc.top
    let rc := { rc with right := r1.2 }
    let r2 := MakeRightColumn r1.1 0 6 rc.right rc.top
    .ok (r2.1, { rc with right := r2.2 })
  | ibGNav =>
    if layout.count ≠ 9 then .error .assertion_failed else
    let r1 := MakeRightColumn layout 6 3 rc.right (rc.top + 3 * layout.control_height)
    let rc := { rc with right := r1.2 }
    let r2 := MakeRightColumn r1.1 0 6 rc.right rc.top
    .ok (r2.1, { rc with right := r2.2 })
  | ibSquare =>
    if layout.count ≠ 5 then .error .assertion_failed else
    let r1 := MakeRightColumn layout 0 5 rc.right rc.top
    .ok (r1.1, { rc with right := r1.2 })
  | _ => .ok (layout, rc)

/-- Embedding of `Calculate(rc, geometry)`.  The lookup `geometry_counts[geometry]` fails
outside the table; each `assert` that does not hold fails. -/
def Calculate (chr : ℚ) (rc : RECT) (geometry : Geometry) : Except CalcError Layout :=
  match geometry_counts[geometry]? with
  | none => .error .index_out_of_bounds
  | some count =>
    let layout : Layout := { Layout.uninitialised with count := count }
    if ¬ layout.count ≤ MAX_INFOBOXES then .error .assertion_failed else
    let layout := CalcInfoBoxSizes chr layout rc geometry
    match CalculateSwitch layout rc geometry with
    | .error e => .error e
    | .ok (layout, rc) => .ok { layout with remaining := rc }

/-! ## The stores into `positions`

The tiling primitives write `positions` one slot at a time.  The functions
below list the stores that a call performs, in the order of the code, each as
the index of the slot and the rectangle stored in it. -/

/-- The stores of the loop of `MakeTopRow`, one per iteration; `cw` is
`layout.control_width`. -/
def MakeTopRowLoopStores (cw top bottom : Int) : Nat → Nat → Int → List (Nat × RECT)
  | 0, _, _ => []
  | n + 1, p, left =>
    let left1 := left + cw
    (p, ⟨left, top, left1, bottom⟩) :: MakeTopRowLoopStores cw top bottom n (p + 1) left1

/-- The stores of `MakeTopRow(layout, p, n, left, top)`. -/
def MakeTopRowStores (layout : Layout) (p n : Nat) (left top : Int) : List (Nat × RECT) :=
  let bottom := top + layout.control_height
  MakeTopRowLoopStores layout.control_width top bottom n p left

/-- The stores of `MakeBottomRow(layout, p, n, left, bottom)`. -/
def MakeBottomRowStores (layout : Layout) (p n : Nat) (left bottom : Int) :
    List (Nat × RECT) :=
  let top := bottom - layout.control_height
  MakeTopRowStores layout p n left top

/-- The stores of the loop of `MakeLeftColumn`, one per iteration; `ch` is
`layout.control_height`. -/
def MakeLeftColumnLoopStores (ch left right : Int) : Nat → Nat → Int → List (Nat × RECT)
  | 0, _, _ => []
  | n + 1, p, top =>
    let top1 := top + ch
    (p, ⟨left, top, right, top1⟩) :: MakeLeftColumnLoopStores ch left right n (p + 1) top1

/-- The stores of `MakeLeftColumn(layout, p, n, left, top)`. -/
def MakeLeftColumnStores (layout : Layout) (p n : Nat) (left top : Int) :
    List (Nat × RECT) :=
  let right := left + layout.control_width
  MakeLeftColumnLoopStores layout.control_height left right n p top

/-- The stores of `MakeRightColumn(layout, p, n, right, top)`. -/
def MakeRightColumnStores (layout : Layout) (p n : Nat) (right top : Int) :
    List (Nat × RECT) :=
  let left := right - layout.control_width
  MakeLeftColumnStores layout p n left top

/-- A list of stores carried out on a layout, first store first. -/
def Layout.replay (layout : Layout) (stores : List (Nat × RECT)) : Layout :=
  stores.foldl (fun l s => l.store s.1 s.2) layout

/-- The stores of the `switch` of `Calculate`: those of the first tiling call
followed by those of the second.  A case whose assertion fails stores
nothing. -/
def CalculateSwitchStores (layout : Layout) (rc : RECT) (geometry : Geometry) :
    List (Nat × RECT) :=
  match geometry with
  | ibTop4Bottom4 =>
    let layout := { layout with count := 8 }
    let r1 := MakeTopRow layout 0 4 rc.left rc.top
    let rc1 := { rc with top := r1.2 }
    MakeTopRowStores layout 0 4 rc.left rc.top ++
      MakeBottomRowStores r1.1 4 4 rc1.left rc1.bottom
  | ibBottom8 =>
    if layout.count ≠ 8 then [] else
    let r1 := MakeBottomRow layout 4 4 rc.left rc.bottom
    let rc1 := { rc with bottom := r1.2 }
    MakeBottomRowStores layout 4 4 rc.left rc.bottom ++
      MakeBottomRowStores r1.1 0 4 rc1.left rc1.bottom
  | ibTop8 =>
    if layout.count ≠ 8 then [] else
    let r1 := MakeTopRow layout 0 4 rc.left rc.top
    let rc1 := { rc with top := r1.2 }
    MakeTopRowStores layout 0 4 rc.left rc.top ++
      MakeTopRowStores r1.1 4 4 rc1.left rc1.top
  | ibLeft4Right4 =>
    if layout.count ≠ 8 then [] else
    let r1 := MakeLeftColumn layout 0 4 rc.left rc.top
    let rc1 := { rc with left := r1.2 }
    MakeLeftColumnStores layout 0 4 rc.left rc.top ++
      MakeRightColumnStores r1.1 4 4 rc1.right rc1.top
  | ibLeft8 =>
    if layout.count ≠ 8 then [] else
    let r1 := MakeLeftColumn layout 0 4 rc.left rc.top
    let rc1 := { rc with left := r1.2 }
    MakeLeftColumnStores layout 0 4 rc.left rc.top ++
      MakeLeftColumnStores r1.1 4 4 rc1.left rc1.top
  | ibRight8 =>
    if layout.count ≠ 8 then [] else
    let r1 := MakeRightColumn layout 4 4 rc.right rc.top
    let rc1 := { rc with right := r1.2 }
    MakeRightColumnStores layout 4 4 rc.right rc.top ++
      MakeRightColumnStores r1.1 0 4 rc1.right rc1.top
  | ibRight12 =>
    if layout.count ≠ 12 then [] else
    let r1 := MakeRightColumn layout 6 6 rc.right rc.top
    let rc1 := { rc with right := r1.2 }
    MakeRightColumnStores layout 6 6 rc.right rc.top ++
      MakeRightColumnStores r1.1 0 6 rc1.right rc1.top
  | ibGNav =>
    if layout.count ≠ 9 then [] else
    let r1 := MakeRightColumn layout 6 3 rc.right (rc.top + 3 * layout.control_height)
    let rc1 := { rc with right := r1.2 }
    MakeRightColumnStores layout 6 3 rc.right (rc.top + 3 * layout.control_height) ++
      MakeRightColumnStores r1.1 0 6 rc1.right rc1.top
  | ibSquare =>
    if layout.count ≠ 5 then [] else
    MakeRightColumnStores layout 0 5 rc.right rc.top
  | _ => []

/-- The stores of `Calculate(rc, geometry)`, all made by its `switch`; a
failed lookup or assertion stores nothing. -/
def CalculateStores (chr : ℚ) (rc : RECT) (geometry : Geometry) : List (Nat × RECT) :=
  match geometry_counts[geometry]? with
  | none => []
  | some count =>
    let layout : Layout := { Layout.uninitialised with count := count }
    if ¬ layout.count ≤ MAX_INFOBOXES then [] else
    let layout := CalcInfoBoxSizes chr layout rc geometry
    CalculateSwitchStores layout rc geometry

/-! ## Predicates on rectangles -/

/-- Rectangle `t` lies within rectangle `r`. -/
def RECT.within (t r : RECT) : Prop :=
  r.left ≤ t.left ∧ t.right ≤ r.right ∧ r.top ≤ t.top ∧ t.bottom ≤ r.bottom

instance (t r : RECT) : Decidable (t.within r) := by
  unfold RECT.within; infer_instance

/-- Pixel `(x, y)` belongs to rectangle `r`: `left ≤ x < right` and
`top ≤ y < bottom`. -/
def RECT.contains (r : RECT) (x y : Int) : Prop :=
  r.left ≤ x ∧ x < r.right ∧ r.top ≤ y ∧ y < r.bottom

/-- Two rectangles overlap when some pixel belongs to both. -/
def RECT.overlaps (a b : RECT) : Prop :=
  ∃ x y : Int, a.contains x y ∧ b.contains x y

/-! ## The 32-bit computation

The functions above compute in the integers.  The `int` of the build has 32
bits: a sum or difference that leaves the range comes back reduced modulo
`2^32`.  The functions below are the same code with every `int` result reduced
this way; they differ from the ones above only where a value leaves the range.
The conversion of a `double` is still `truncate`, and the division by `count`
still the one on `int`. -/

/-- Reduction of an integer to the 32-bit `int` range, modulo `2^32`. -/
def wrap32 (i : Int) : Int :=
  (i + 2147483648) % 4294967296 - 2147483648

/-- The integer is a value of the 32-bit `int`. -/
def inInt32 (i : Int) : Prop :=
  -2147483648 ≤ i ∧ i ≤ 2147483647

/-- The four edges of the rectangle are values of the 32-bit `int`. -/
def RECT.inInt32 (r : RECT) : Prop :=
  InfoBoxLayout.inInt32 r.left ∧ InfoBoxLayout.inInt32 r.top ∧
    InfoBoxLayout.inInt32 r.right ∧ InfoBoxLayout.inInt32 r.bottom

/-- The tile size, the remaining rectangle and the tiles below `count` of the
layout are made of values of the 32-bit `int`. -/
def Layout.inInt32 (layout : Layout) : Prop :=
  InfoBoxLayout.inInt32 layout.control_width ∧
    InfoBoxLayout.inInt32 layout.control_height ∧
    layout.remaining.inInt32 ∧
    ∀ i, i < layout.count → ∀ t, layout.tile i = some t → t.inInt32

/-- The loop of `MakeTopRow` with 32-bit `int`. -/
def MakeTopRowLoop32 (top bottom : Int) : Nat → Layout → Nat → Int → Layout
  | 0, layout, _, _ => layout
  | n + 1, layout, p, left =>
    let left1 := wrap32 (left + layout.control_width)
    MakeTopRowLoop32 top bottom n (layout.store p ⟨left, top, left1, bottom⟩) (p + 1) left1

/-- Embedding of `MakeTopRow(layout, p, n, left, top)` with 32-bit `int`. -/
def MakeTopRow32 (layout : Layout) (p n : Nat) (left top : Int) : Layout × Int :=
  let bottom := wrap32 (top + layout.control_height)
  (MakeTopRowLoop32 top bottom n layout p left, bottom)

/-- Embedding of `MakeBottomRow(layout, p, n, left, bottom)` with 32-bit
`int`. -/
def MakeBottomRow32 (layout : Layout) (p n : Nat) (left bottom : Int) : Layout × Int :=
  let top := wrap32 (bottom - layout.control_height)
  ((MakeTopRow32 layout p n left top).1, top)

/-- The loop of `MakeLeftColumn` with 32-bit `int`. -/
def MakeLeftColumnLoop32 (left right : Int) : Nat → Layout → Nat → Int → Layout
  | 0, layout, _, _ => layout
  | n + 1, layout, p, top =>
    let top1 := wrap32 (top + layout.control_height)
    MakeLeftColumnLoop32 left right n (layout.store p ⟨left, top, right, top1⟩) (p + 1) top1

/-- Embedding of `MakeLeftColumn(layout, p, n, left, top)` with 32-bit
`int`. -/
def MakeLeftColumn32 (layout : Layout) (p n : Nat) (left top : Int) : Layout × Int :=
  let right := wrap32 (left + layout.control_width)
  (MakeLeftColumnLoop32 left right n layout p top, right)

/-- Embedding of `MakeRightColumn(layout, p, n, right, top)` with 32-bit
`int`. -/
def MakeRightColumn32 (layout : Layout) (p n : Nat) (right top : Int) : Layout × Int :=
  let left := wrap32 (right - layout.control_width)
  ((MakeLeftColumn32 layout p n left top).1, left)

/-- Embedding of `CalcInfoBoxSizes(layout, rc, geometry)` with 32-bit `int`:
the differences of the edges and their doubles are reduced. -/
def CalcInfoBoxSizes32 (chr : ℚ) (layout : Layout) (rc : RECT) (geometry : Geometry) :
    Layout :=
  match geometry with
  | ibTop4Bottom4 | ibBottom8 | ibTop8 =>
    { layout with
      control_width := (wrap32 (2 * wrap32 (rc.right - rc.left))).tdiv layout.count
      control_height := truncate (((wrap32 (rc.bottom - rc.top) : Int) : ℚ) / chr) }
  | ibLeft4Right4 | ibLeft8 | ibRight8 =>
    { layout with
      control_width := truncate (((wrap32 (rc.right - rc.left) : Int) : ℚ) / chr * 1.3)
      control_height := (wrap32 (2 * wrap32 (rc.bottom - rc.top))).tdiv layout.count }
  | ibGNav | ibRight12 =>
    let control_height := (wrap32 (rc.bottom - rc.top)).tdiv 6
    { layout with
      control_height := control_height
      control_width := truncate ((control_height : ℚ) * 1.44) }
  | ibSquare =>
    { layout with
      control_width := truncate (((wrap32 (rc.right - rc.left) : Int) : ℚ) * 0.2)
      control_height := (wrap32 (rc.bottom - rc.top)).tdiv 5 }
  | _ => layout

/-- The `switch` of `Calculate` with 32-bit `int`. -/
def CalculateSwitch32 (layout : Layout) (rc : RECT) (geometry : Geometry) :
    Except CalcError (Layout × RECT) :=
  match geometry with
  | ibTop4Bottom4 =>
    let layout := { layout with count := 8 }
    let r1 := MakeTopRow32 layout 0 4 rc.left rc.top
    let rc := { rc with top := r1.2 }
    let r2 := MakeBottomRow32 r1.1 4 4 rc.left rc.bottom
    .ok (r2.1, { rc with bottom := r2.2 })
  | ibBottom8 =>
    if layout.count ≠ 8 then .error .assertion_failed else
    let r1 := MakeBottomRow32 layout 4 4 rc.left rc.bottom
    let rc := { rc with bottom := r1.2 }
    let r2 := MakeBottomRow32 r1.1 0 4 rc.left rc.bottom
    .ok (r2.1, { rc with bottom := r2.2 })
  | ibTop8 =>
    if layout.count ≠ 8 then .error .assertion_failed else
    let r1 := MakeTopRow32 layout 0 4 rc.left rc.top
    let rc := { rc with top := r1.2 }
    let r2 := MakeTopRow32 r1.1 4 4 rc.left rc.top
    .ok (r2.1, { rc with top := r2.2 })
  | ibLeft4Right4 =>
    if layout.count ≠ 8 then .error .assertion_failed else
    let r1 := MakeLeftColumn32 layout 0 4 rc.left rc.top
    let rc := { rc with left := r1.2 }
    let r2 := MakeRightColumn32 r1.1 4 4 rc.right rc.top
    .ok (r2.1, { rc with right := r2.2 })
  | ibLeft8 =>
    if layout.count ≠ 8 then .error .assertion_failed else
    let r1 := MakeLeftColumn32 layout 0 4 rc.left rc.top
    let rc := { rc with left := r1.2 }
    let r2 := MakeLeftColumn32 r1.1 4 4 rc.left rc.top
    .ok (r2.1, { rc with left := r2.2 })
  | ibRight8 =>
    if layout.count ≠ 8 then .error .assertion_failed else
    let r1 := MakeRightColumn32 layout 4 4 rc.right rc.top
    let rc := { rc with right := r1.2 }
    let r2 := MakeRightColumn32 r1.1 0 4 rc.right rc.top
    .ok (r2.1, { rc with right := r2.2 })
  | ibRight12 =>
    if layout.count ≠ 12 then .error .assertion_failed else
    let r1 := MakeRightColumn32 layout 6 6 rc.right rc.top
    let rc := { rc with right := r1.2 }
    let r2 := MakeRightColumn32 r1.1 0 6 rc.right rc.top
    .ok (r2.1, { rc with right := r2.2 })
  | ibGNav =>
    if layout.count ≠ 9 then .error .assertion_failed else
    let r1 := MakeRightColumn32 layout 6 3 rc.right
      (wrap32 (rc.top + wrap32 (3 * layout.control_height)))
    let rc := { rc with right := r1.2 }
    let r2 := MakeRightColumn32 r1.1 0 6 rc.right rc.top
    .ok (r2.1, { rc with right := r2.2 })
  | ibSquare =>
    if layout.count ≠ 5 then .error .assertion_failed else
    let r1 := MakeRightColumn32 layout 0 5 rc.right rc.top
    .ok (r1.1, { rc with right := r1.2 })
  | _ => .ok (layout, rc)

/-- Embedding of `Calculate(rc, geometry)` with 32-bit `int`. -/
def Calculate32 (chr : ℚ) (rc : RECT) (geometry : Geometry) : Except CalcError Layout :=
  match geometry_counts[geometry]? with
  | none => .error .index_out_of_bounds
  | some count =>
    let layout : Layout := { Layout.uninitialised with count := count }
    if ¬ layout.count ≤ MAX_INFOBOXES then .error .assertion_failed else
    let layout := CalcInfoBoxSizes32 chr layout rc geometry
    match CalculateSwitch32 layout rc geometry with
    | .error e => .error e
    | .ok (layout, rc) => .ok { layout with remaining := rc }

/-- The call `Calculate(rc, geometry)` stays inside the 32-bit `int`: the edges
of `rc` are `int` values with `left <= right` and `top <= bottom`, twice its
width and twice its height are `int` values, and, computed in the integers,
the tile size, the edges of the tiles and the edges of the remaining rectangle
are `int` values. -/
def NoOverflow (chr : ℚ) (rc : RECT) (geometry : Geometry) : Prop :=
  rc.inInt32 ∧ rc.left ≤ rc.right ∧ rc.top ≤ rc.bottom ∧
    inInt32 (2 * (rc.right - rc.left)) ∧ inInt32 (2 * (rc.bottom - rc.top)) ∧
    ∀ layout, Calculate chr rc geometry = .ok layout → layout.inInt32

/-! ## The result of `Calculate`, template by template

Each lemma unfolds `Calculate` on one template: the tile size `w`, `h`
computed by `CalcInfoBoxSizes`, the twelve slots of `positions` as the tiling
primitives leave them, and the remaining rectangle. -/

/-- Result of `Calculate` on `ibTop4Bottom4`: tiles 0..3 are the top row, tiles 4..7 the bottom row. -/
theorem Calculate_ibTop4Bottom4 (chr : ℚ) (rc : RECT) :
    Calculate chr rc ibTop4Bottom4 = .ok
      (let w := (2 * (rc.right - rc.left)).tdiv 8
       let h := truncate (((rc.bottom - rc.top : Int) : ℚ) / chr)
       { control_width := w
         control_height := h
         count := 8
         positions :=
          [some ⟨rc.left, rc.top, rc.left + w, rc.top + h⟩,
           some ⟨rc.left + w, rc.top, rc.left + w + w, rc.top + h⟩,
           some ⟨rc.left + w + w, rc.top, rc.left + w + w + w, rc.top + h⟩,
           some ⟨rc.left + w + w + w, rc.top, rc.left + w + w + w + w, rc.top + h⟩,
           some ⟨rc.left, rc.bottom - h, rc.left + w, rc.bottom - h + h⟩,
           some ⟨rc.left + w, rc.bottom - h, rc.left + w + w, rc.bottom - h + h⟩,
           some ⟨rc.left + w + w, rc.bottom - h, rc.left + w + w + w, rc.bottom - h + h⟩,
           some ⟨rc.left + w + w + w, rc.bottom - h, rc.left + w + w + w + w, rc.bottom - h + h⟩,
           none,
           none,
           none,
           none]
         remaining := ⟨rc.left, rc.top + h, rc.right, rc.bottom - h⟩ }) := by
  rfl

/-- Result of `Calculate` on `ibBottom8`: tiles 4..7 are the bottom row, tiles 0..3 the row above it. -/
theorem Calculate_ibBottom8 (chr : ℚ) (rc : RECT) :
    Calculate chr rc ibBottom8 = .ok
      (let w := (2 * (rc.right - rc.left)).tdiv 8
       let h := truncate (((rc.bottom - rc.top : Int) : ℚ) / chr)
       { control_width := w
         control_height := h
         count := 8
         positions :=
          [some ⟨rc.left, rc.bottom - h - h, rc.left + w, rc.bottom - h - h + h⟩,
           some ⟨rc.left + w, rc.bottom - h - h, rc.left + w + w, rc.bottom - h - h + h⟩,
           some ⟨rc.left + w + w, rc.bottom - h - h, rc.left + w + w + w, rc.bottom - h - h + h⟩,
           some ⟨rc.left + w + w + w, rc.bottom - h - h, rc.left + w + w + w + w, rc.bottom - h - h + h⟩,
           some ⟨rc.left, rc.bottom - h, rc.left + w, rc.bottom - h + h⟩,
           some ⟨rc.left + w, rc.bottom - h, rc.left + w + w, rc.bottom - h + h⟩,
           some ⟨rc.left + w + w, rc.bottom - h, rc.left + w + w + w, rc.bottom - h + h⟩,
           some ⟨rc.left + w + w + w, rc.bottom - h, rc.left + w + w + w + w, rc.bottom - h + h⟩,
           none,
           none,
           none,
           none]
         remaining := ⟨rc.left, rc.top, rc.right, rc.bottom - h - h⟩ }) := by
  rfl

/-- Result of `Calculate` on `ibTop8`: tiles 0..3 are the top row, tiles 4..7 the row below it. -/
theorem Calculate_ibTop8 (chr : ℚ) (rc : RECT) :
    Calculate chr rc ibTop8 = .ok
      (let w := (2 * (rc.right - rc.left)).tdiv 8
       let h := truncate (((rc.bottom - rc.top : Int) : ℚ) / chr)
       { control_width := w
         control_height := h
         count := 8
         positions :=
          [some ⟨rc.left, rc.top, rc.left + w, rc.top + h⟩,
           some ⟨rc.left + w, rc.top, rc.left + w + w, rc.top + h⟩,
           some ⟨rc.left + w + w, rc.top, rc.left + w + w + w, rc.top + h⟩,
           some ⟨rc.left + w + w + w, rc.top, rc.left + w + w + w + w, rc.top + h⟩,
           some ⟨rc.left, rc.top + h, rc.left + w, rc.top + h + h⟩,
           some ⟨rc.left + w, rc.top + h, rc.left + w + w, rc.top + h + h⟩,
           some ⟨rc.left + w + w, rc.top + h, rc.left + w + w + w, rc.top + h + h⟩,
           some ⟨rc.left + w + w + w, rc.top + h, rc.left + w + w + w + w, rc.top + h + h⟩,
           none,
           none,
           none,
           none]
         remaining := ⟨rc.left, rc.top + h + h, rc.right, rc.bottom⟩ }) := by
  rfl

/-- Result of `Calculate` on `ibLeft4Right4`: tiles 0..3 are the left column, tiles 4..7 the right column. -/
theorem Calculate_ibLeft4Right4 (chr : ℚ) (rc : RECT) :
    Calculate chr rc ibLeft4Right4 = .ok
      (let w := truncate (((rc.right - rc.left : Int) : ℚ) / chr * 1.3)
       let h := (2 * (rc.bottom - rc.top)).tdiv 8
       { control_width := w
         control_height := h
         count := 8
         positions :=
          [some ⟨rc.left, rc.top, rc.left + w, rc.top + h⟩,
           some ⟨rc.left, rc.top + h, rc.left + w, rc.top + h + h⟩,
           some ⟨rc.left, rc.top + h + h, rc.left + w, rc.top + h + h + h⟩,
           some ⟨rc.left, rc.top + h + h + h, rc.left + w, rc.top + h + h + h + h⟩,
           some ⟨rc.right - w, rc.top, rc.right - w + w, rc.top + h⟩,
           some ⟨rc.right - w, rc.top + h, rc.right - w + w, rc.top + h + h⟩,
           some ⟨rc.right - w, rc.top + h + h, rc.right - w + w, rc.top + h + h + h⟩,
           some ⟨rc.right - w, rc.top + h + h + h, rc.right - w + w, rc.top + h + h + h + h⟩,
           none,
           none,
           none,
           none]
         remaining := ⟨rc.left + w, rc.top, rc.right - w, rc.bottom⟩ }) := by
  rfl

/-- Result of `Calculate` on `ibLeft8`: tiles 0..3 are the left column, tiles 4..7 the column right of it. -/
theorem Calculate_ibLeft8 (chr : ℚ) (rc : RECT) :
    Calculate chr rc ibLeft8 = .ok
      (let w := truncate (((rc.right - rc.left : Int) : ℚ) / chr * 1.3)
       let h := (2 * (rc.bottom - rc.top)).tdiv 8
       { control_width := w
         control_height := h
         count := 8
         positions :=
          [some ⟨rc.left, rc.top, rc.left + w, rc.top + h⟩,
           some ⟨rc.left, rc.top + h, rc.left + w, rc.top + h + h⟩,
           some ⟨rc.left, rc.top + h + h, rc.left + w, rc.top + h + h + h⟩,
           some ⟨rc.left, rc.top + h + h + h, rc.left + w, rc.top + h + h + h + h⟩,
           some ⟨rc.left + w, rc.top, rc.left + w + w, rc.top + h⟩,
           some ⟨rc.left + w, rc.top + h, rc.left + w + w, rc.top + h + h⟩,
           some ⟨rc.left + w, rc.top + h + h, rc.left + w + w, rc.top + h + h + h⟩,
           some ⟨rc.left + w, rc.top + h + h + h, rc.left + w + w, rc.top + h + h + h + h⟩,
           none,
           none,
           none,
           none]
         remaining := ⟨rc.left + w + w, rc.top, rc.right, rc.bottom⟩ }) := by
  rfl

/-- Result of `Calculate` on `ibRight8`: tiles 4..7 are the right column, tiles 0..3 the column left of it. -/
theorem Calculate_ibRight8 (chr : ℚ) (rc : RECT) :
    Calculate chr rc ibRight8 = .ok
      (let w := truncate (((rc.right - rc.left : Int) : ℚ) / chr * 1.3)
       let h := (2 * (rc.bottom - rc.top)).tdiv 8
       { control_width := w
         control_height := h
         count := 8
         positions :=
          [some ⟨rc.right - w - w, rc.top, rc.right - w - w + w, rc.top + h⟩,
           some ⟨rc.right - w - w, rc.top + h, rc.right - w - w + w, rc.top + h + h⟩,
           some ⟨rc.right - w - w, rc.top + h + h, rc.right - w - w + w, rc.top + h + h + h⟩,
           some ⟨rc.right - w - w, rc.top + h + h + h, rc.right - w - w + w, rc.top + h + h + h + h⟩,
           some ⟨rc.right - w, rc.top, rc.right - w + w, rc.top + h⟩,
           some ⟨rc.right - w, rc.top + h, rc.right - w + w, rc.top + h + h⟩,
           some ⟨rc.right - w, rc.top + h + h, rc.right - w + w, rc.top + h + h + h⟩,
           some ⟨rc.right - w, rc.top + h + h + h, rc.right - w + w, rc.top + h + h + h + h⟩,
           none,
           none,
           none,
           none]
         remaining := ⟨rc.left, rc.top, rc.right - w - w, rc.bottom⟩ }) := by
  rfl

/-- Result of `Calculate` on `ibGNav`: tiles 6..8 are the right column below the top band, tiles 0..5 the column left of it. -/
theorem Calculate_ibGNav (chr : ℚ) (rc : RECT) :
    Calculate chr rc ibGNav = .ok
      (let w := truncate ((((rc.bottom - rc.top).tdiv 6 : Int) : ℚ) * 1.44)
       let h := (rc.bottom - rc.top).tdiv 6
       { control_width := w
         control_height := h
         count := 9
         positions :=
          [some ⟨rc.right - w - w, rc.top, rc.right - w - w + w, rc.top + h⟩,
           some ⟨rc.right - w - w, rc.top + h, rc.right - w - w + w, rc.top + h + h⟩,
           some ⟨rc.right - w - w, rc.top + h + h, rc.right - w - w + w, rc.top + h + h + h⟩,
           some ⟨rc.right - w - w, rc.top + h + h + h, rc.right - w - w + w, rc.top + h + h + h + h⟩,
           some ⟨rc.right - w - w, rc.top + h + h + h + h, rc.right - w - w + w, rc.top + h + h + h + h + h⟩,
           some ⟨rc.right - w - w, rc.top + h + h + h + h + h, rc.right - w - w + w, rc.top + h + h + h + h + h + h⟩,
           some ⟨rc.right - w, rc.top + 3 * h, rc.right - w + w, rc.top + 3 * h + h⟩,
           some ⟨rc.right - w, rc.top + 3 * h + h, rc.right - w + w, rc.top + 3 * h + h + h⟩,
           some ⟨rc.right - w, rc.top + 3 * h + h + h, rc.right - w + w, rc.top + 3 * h + h + h + h⟩,
           none,
           none,
           none]
         remaining := ⟨rc.left, rc.top, rc.right - w - w, rc.bottom⟩ }) := by
  rfl

/-- Result of `Calculate` on `ibSquare`: tiles 0..4 are the right column. -/
theorem Calculate_ibSquare (chr : ℚ) (rc : RECT) :
    Calculate chr rc ibSquare = .ok
      (let w := truncate (((rc.right - rc.left : Int) : ℚ) * 0.2)
       let h := (rc.bottom - rc.top).tdiv 5
       { control_width := w
         control_height := h
         count := 5
         positions :=
          [some ⟨rc.right - w, rc.top, rc.right - w + w, rc.top + h⟩,
           some ⟨rc.right - w, rc.top + h, rc.right - w + w, rc.top + h + h⟩,
           some ⟨rc.right - w, rc.top + h + h, rc.right - w + w, rc.top + h + h + h⟩,
           some ⟨rc.right - w, rc.top + h + h + h, rc.right - w + w, rc.top + h + h + h + h⟩,
           some ⟨rc.right - w, rc.top + h + h + h + h, rc.right - w + w, rc.top + h + h + h + h + h⟩,
           none,
           none,
           none,
           none,
           none,
           none,
           none]
         remaining := ⟨rc.left, rc.top, rc.right - w, rc.bottom⟩ }) := by
  rfl

/-- Result of `Calculate` on `ibRight12`: tiles 6..11 are the right column, tiles 0..5 the column left of it. -/
theorem Calculate_ibRight12 (chr : ℚ) (rc : RECT) :
    Calculate chr rc ibRight12 = .ok
      (let w := truncate ((((rc.bottom - rc.top).tdiv 6 : Int) : ℚ) * 1.44)
       let h := (rc.bottom - rc.top).tdiv 6
       { control_width := w
         control_height := h
         count := 12
         positions :=
          [some ⟨rc.right - w - w, rc.top, rc.right - w - w + w, rc.top + h⟩,
           some ⟨rc.right - w - w, rc.top + h, rc.right - w - w + w, rc.top + h + h⟩,
           some ⟨rc.right - w - w, rc.top + h + h, rc.right - w - w + w, rc.top + h + h + h⟩,
           some ⟨rc.right - w - w, rc.top + h + h + h, rc.right - w - w + w, rc.top + h + h + h + h⟩,
           some ⟨rc.right - w - w, rc.top + h + h + h + h, rc.right - w - w + w, rc.top + h + h + h + h + h⟩,
           some ⟨rc.right - w - w, rc.top + h + h + h + h + h, rc.right - w - w + w, rc.top + h + h + h + h + h + h⟩,
           some ⟨rc.right - w, rc.top, rc.right - w + w, rc.top + h⟩,
           some ⟨rc.right - w, rc.top + h, rc.right - w + w, rc.top + h + h⟩,
           some ⟨rc.right - w, rc.top + h + h, rc.right - w + w, rc.top + h + h + h⟩,
           some ⟨rc.right - w, rc.top + h + h + h, rc.right - w + w, rc.top + h + h + h + h⟩,
           some ⟨rc.right - w, rc.top + h + h + h + h, rc.right - w + w, rc.top + h + h + h + h + h⟩,
           some ⟨rc.right - w, rc.top + h + h + h + h + h, rc.right - w + w, rc.top + h + h + h + h + h + h⟩]
         remaining := ⟨rc.left, rc.top, rc.right - w - w, rc.bottom⟩ }) := by
  rfl

/-! ## Bounds on the tile size -/

/-- Truncating a non-negative value gives its floor. -/
theorem truncate_of_nonneg {x : ℚ} (hx : 0 ≤ x) : truncate x = ⌊x⌋ := by
  simp [truncate, hx]

/-- Truncating a non-negative value gives a non-negative integer. -/
theorem truncate_nonneg {x : ℚ} (hx : 0 ≤ x) : 0 ≤ truncate x := by
  rw [truncate_of_nonneg hx]; exact Int.floor_nonneg.mpr hx

/-- Truncating a non-negative value does not increase it. -/
theorem truncate_le {x : ℚ} (hx : 0 ≤ x) : ((truncate x : Int) : ℚ) ≤ x := by
  rw [truncate_of_nonneg hx]; exact Int.floor_le x

/-- Integer division of a non-negative extent by a positive constant. -/
theorem tdiv_bounds {a : Int} (ha : 0 ≤ a) {k : Int} (hk : 0 < k) :
    0 ≤ a.tdiv k ∧ k * a.tdiv k ≤ a := by
  rw [Int.tdiv_eq_ediv ha hk.le]
  exact ⟨Int.ediv_nonneg ha hk.le, Int.mul_ediv_self_le hk.ne'⟩

/-- The extent divided by `CONTROLHEIGHTRATIO`: with a ratio of at least 2.6,
the truncated quotient `q` is non-negative and `13 * q ≤ 5 * extent`. -/
theorem ratio_bounds {chr : ℚ} (hchr : 13 / 5 ≤ chr) {a : Int} (ha : 0 ≤ a) :
    0 ≤ truncate ((a : ℚ) / chr) ∧ 13 * truncate ((a : ℚ) / chr) ≤ 5 * a := by
  have hpos : (0 : ℚ) < chr := by linarith
  have ha' : (0 : ℚ) ≤ a := by exact_mod_cast ha
  have hx : (0 : ℚ) ≤ (a : ℚ) / chr := div_nonneg ha' hpos.le
  refine ⟨truncate_nonneg hx, ?_⟩
  have h1 := truncate_le hx
  have h0 : (0 : ℚ) ≤ truncate ((a : ℚ) / chr) := by exact_mod_cast truncate_nonneg hx
  have h2 : ((truncate ((a : ℚ) / chr) : Int) : ℚ) * chr ≤ a := (le_div_iff₀ hpos).mp h1
  have h3 : (13 : ℚ) * truncate ((a : ℚ) / chr) ≤ 5 * a := by nlinarith
  exact_mod_cast h3

/-- The tile width of the column templates: with a ratio of at least 2.6, two
tile widths fit in the extent. -/
theorem column_width_bounds {chr : ℚ} (hchr : 13 / 5 ≤ chr) {a : Int} (ha : 0 ≤ a) :
    0 ≤ truncate ((a : ℚ) / chr * 1.3) ∧ 2 * truncate ((a : ℚ) / chr * 1.3) ≤ a := by
  have hpos : (0 : ℚ) < chr := by linarith
  have ha' : (0 : ℚ) ≤ a := by exact_mod_cast ha
  have hq : (0 : ℚ) ≤ (a : ℚ) / chr := div_nonneg ha' hpos.le
  have hx : (0 : ℚ) ≤ (a : ℚ) / chr * 1.3 := by positivity
  refine ⟨truncate_nonneg hx, ?_⟩
  have h1 := truncate_le hx
  have h2 : (a : ℚ) / chr * chr = a := div_mul_cancel₀ _ hpos.ne'
  have h3 : (2 : ℚ) * truncate ((a : ℚ) / chr * 1.3) ≤ a := by nlinarith
  exact_mod_cast h3

/-- The tile width of `ibSquare`: five tile widths fit in the extent. -/
theorem square_width_bounds {a : Int} (ha : 0 ≤ a) :
    0 ≤ truncate ((a : ℚ) * 0.2) ∧ 5 * truncate ((a : ℚ) * 0.2) ≤ a := by
  have ha' : (0 : ℚ) ≤ a := by exact_mod_cast ha
  have hx : (0 : ℚ) ≤ (a : ℚ) * 0.2 := by positivity
  refine ⟨truncate_nonneg hx, ?_⟩
  have h1 := truncate_le hx
  have h3 : (5 : ℚ) * truncate ((a : ℚ) * 0.2) ≤ a := by linarith
  exact_mod_cast h3

/-- The tile width of `ibGNav` and `ibRight12` is non-negative. -/
theorem aspect_width_nonneg {a : Int} (ha : 0 ≤ a) :
    0 ≤ truncate ((a : ℚ) * 1.44) := by
  have ha' : (0 : ℚ) ≤ a := by exact_mod_cast ha
  exact truncate_nonneg (by positivity)

/-! ## The geometry selector -/

/-- An ordinal outside the count table is validated as the default
template. -/
theorem ValidateGeometry_clamp (g : Geometry) (w h : Nat) (hg : 9 ≤ g) :
    ValidateGeometry g w h = ValidateGeometry ibTop4Bottom4 w h := by
  simp [ValidateGeometry, geometry_counts, hg, ibTop4Bottom4]

/-- The result of `ValidateGeometry` is an ordinal of the count table. -/
theorem ValidateGeometry_lt (g : Geometry) (w h : Nat) :
    ValidateGeometry g w h < 9 := by
  rcases Nat.lt_or_ge g 9 with hg | hg
  · interval_cases g <;> simp only [ValidateGeometry] <;> split_ifs <;> decide
  · rw [ValidateGeometry_clamp g w h hg]
    simp only [ValidateGeometry] ; split_ifs <;> decide

/-- Every entry of the count table is at most `MAX_INFOBOXES`. -/
theorem geometry_counts_le (g : Geometry) (hg : g < 9) :
    ∃ count, geometry_counts[g]? = some count ∧ count ≤ MAX_INFOBOXES := by
  interval_cases g <;> exact ⟨_, rfl, by decide⟩

/-- On a template of the table, `Calculate` returns a layout whose count is
the entry of the count table. -/
theorem Calculate_count_table (chr : ℚ) (rc : RECT) (g : Geometry) (hg : g < 9) :
    ∃ layout, Calculate chr rc g = .ok layout ∧
      geometry_counts[g]? = some layout.count := by
  interval_cases g <;> exact ⟨_, rfl, rfl⟩


/-! ## Tile count -/

/-- C1: for every rectangle with positive width and height, `Calculate`
succeeds on each of the nine templates and the count of the layout is the
fixed tile count of the template: 8 for the six 8-tile templates, 9 for
`ibGNav`, 5 for `ibSquare` and 12 for `ibRight12`. -/
theorem Calculate_count_fixed (chr : ℚ) (rc : RECT)
    (_hw : rc.left < rc.right) (_hh : rc.top < rc.bottom) :
    (∀ g ∈ [ibTop4Bottom4, ibBottom8, ibTop8, ibLeft4Right4, ibLeft8, ibRight8],
      ∃ layout, Calculate chr rc g = .ok layout ∧ layout.count = 8) ∧
    (∃ layout, Calculate chr rc ibGNav = .ok layout ∧ layout.count = 9) ∧
    (∃ layout, Calculate chr rc ibSquare = .ok layout ∧ layout.count = 5) ∧
    (∃ layout, Calculate chr rc ibRight12 = .ok layout ∧ layout.count = 12) := by
  refine ⟨?_, ⟨_, rfl, rfl⟩, ⟨_, rfl, rfl⟩, ⟨_, rfl, rfl⟩⟩
  intro g hg
  simp only [List.mem_cons, List.mem_singleton, List.not_mem_nil, or_false] at hg
  rcases hg with rfl | rfl | rfl | rfl | rfl | rfl <;> exact ⟨_, rfl, rfl⟩

/-- Witness of C1 on the rectangle `(0, 0, 800, 480)`. -/
theorem Calculate_count_fixed_witness :
    (∀ g ∈ [ibTop4Bottom4, ibBottom8, ibTop8, ibLeft4Right4, ibLeft8, ibRight8],
      ∃ layout, Calculate (37 / 5) ⟨0, 0, 800, 480⟩ g = .ok layout ∧ layout.count = 8) ∧
    (∃ layout, Calculate (37 / 5) ⟨0, 0, 800, 480⟩ ibGNav = .ok layout ∧ layout.count = 9) ∧
    (∃ layout, Calculate (37 / 5) ⟨0, 0, 800, 480⟩ ibSquare = .ok layout ∧ layout.count = 5) ∧
    (∃ layout, Calculate (37 / 5) ⟨0, 0, 800, 480⟩ ibRight12 = .ok layout ∧
      layout.count = 12) :=
  Calculate_count_fixed (37 / 5) ⟨0, 0, 800, 480⟩ (by decide) (by decide)

/-! ## ValidateGeometry and LoadGeometryFromProfile -/

/-- C4: `ValidateGeometry` is idempotent, for every ordinal `g` (inside the
table or not) and all `w`, `h`. -/
theorem ValidateGeometry_idempotent (g : Geometry) (w h : Nat) :
    ValidateGeometry (ValidateGeometry g w h) w h = ValidateGeometry g w h := by
  have key : ∀ k : Geometry, k < 9 →
      ValidateGeometry (ValidateGeometry k w h) w h = ValidateGeometry k w h := by
    intro k hk
    rcases Nat.lt_trichotomy w h with hlt | heq | hgt
    · have h1 : ¬ w > h := by omega
      have h2 : ¬ w = h := by omega
      interval_cases k <;>
        simp [ValidateGeometry, h1, h2, geometry_counts, ibTop4Bottom4, ibBottom8, ibTop8,
    ibLeft4Right4, ibLeft8, ibRight8, ibGNav, ibSquare, ibRight12]
    · subst heq
      simp [ValidateGeometry]
    · interval_cases k <;>
        simp [ValidateGeometry, hgt, geometry_counts, ibTop4Bottom4, ibBottom8, ibTop8,
    ibLeft4Right4, ibLeft8, ibRight8, ibGNav, ibSquare, ibRight12]
  rcases Nat.lt_or_ge g 9 with hg | hg
  · exact key g hg
  · rw [ValidateGeometry_clamp g w h hg]
    exact key _ (by decide)

/-- C5: in landscape (`width > height`) the stacked templates and `ibSquare`
are mapped to their sided counterparts and the sided templates are returned
unchanged; in particular on 800 x 480. -/
theorem ValidateGeometry_landscape (w h : Nat) (hl : w > h) :
    ValidateGeometry ibTop4Bottom4 w h = ibLeft4Right4 ∧
    ValidateGeometry ibBottom8 w h = ibRight8 ∧
    ValidateGeometry ibTop8 w h = ibLeft8 ∧
    ValidateGeometry ibSquare w h = ibRight8 ∧
    ValidateGeometry ibLeft4Right4 w h = ibLeft4Right4 ∧
    ValidateGeometry ibLeft8 w h = ibLeft8 ∧
    ValidateGeometry ibRight8 w h = ibRight8 ∧
    ValidateGeometry ibGNav w h = ibGNav ∧
    ValidateGeometry ibRight12 w h = ibRight12 ∧
    ValidateGeometry ibTop4Bottom4 800 480 = ibLeft4Right4 := by
  refine ⟨?_, ?_, ?_, ?_, ?_, ?_, ?_, ?_, ?_, by decide⟩ <;>
    simp [ValidateGeometry, hl, geometry_counts, ibTop4Bottom4, ibBottom8, ibTop8,
    ibLeft4Right4, ibLeft8, ibRight8, ibGNav, ibSquare, ibRight12]

/-- Witness of C5 on a screen of 800 x 480. -/
theorem ValidateGeometry_landscape_witness :
    ValidateGeometry ibTop4Bottom4 800 480 = ibLeft4Right4 ∧
    ValidateGeometry ibBottom8 800 480 = ibRight8 ∧
    ValidateGeometry ibTop8 800 480 = ibLeft8 ∧
    ValidateGeometry ibSquare 800 480 = ibRight8 ∧
    ValidateGeometry ibLeft4Right4 800 480 = ibLeft4Right4 ∧
    ValidateGeometry ibLeft8 800 480 = ibLeft8 ∧
    ValidateGeometry ibRight8 800 480 = ibRight8 ∧
    ValidateGeometry ibGNav 800 480 = ibGNav ∧
    ValidateGeometry ibRight12 800 480 = ibRight12 ∧
    ValidateGeometry ibTop4Bottom4 800 480 = ibLeft4Right4 :=
  ValidateGeometry_landscape 800 480 (by decide)

/-- C6: in portrait (`width < height`) the sided templates, `ibGNav`,
`ibSquare` and `ibRight12` are mapped to their stacked counterparts and the
stacked templates are returned unchanged; in particular on 480 x 800. -/
theorem ValidateGeometry_portrait (w h : Nat) (hp : w < h) :
    ValidateGeometry ibLeft4Right4 w h = ibTop4Bottom4 ∧
    ValidateGeometry ibLeft8 w h = ibTop8 ∧
    ValidateGeometry ibRight8 w h = ibBottom8 ∧
    ValidateGeometry ibGNav w h = ibBottom8 ∧
    ValidateGeometry ibSquare w h = ibBottom8 ∧
    ValidateGeometry ibRight12 w h = ibBottom8 ∧
    ValidateGeometry ibTop4Bottom4 w h = ibTop4Bottom4 ∧
    ValidateGeometry ibBottom8 w h = ibBottom8 ∧
    ValidateGeometry ibTop8 w h = ibTop8 ∧
    ValidateGeometry ibLeft4Right4 480 800 = ibTop4Bottom4 := by
  have h1 : ¬ w > h := by omega
  have h2 : ¬ w = h := by omega
  refine ⟨?_, ?_, ?_, ?_, ?_, ?_, ?_, ?_, ?_, by decide⟩ <;>
    simp [ValidateGeometry, h1, h2, geometry_counts, ibTop4Bottom4, ibBottom8, ibTop8,
    ibLeft4Right4, ibLeft8, ibRight8, ibGNav, ibSquare, ibRight12]

/-- Witness of C6 on a screen of 480 x 800. -/
theorem ValidateGeometry_portrait_witness :
    ValidateGeometry ibLeft4Right4 480 800 = ibTop4Bottom4 ∧
    ValidateGeometry ibLeft8 480 800 = ibTop8 ∧
    ValidateGeometry ibRight8 480 800 = ibBottom8 ∧
    ValidateGeometry ibGNav 480 800 = ibBottom8 ∧
    ValidateGeometry ibSquare 480 800 = ibBottom8 ∧
    ValidateGeometry ibRight12 480 800 = ibBottom8 ∧
    ValidateGeometry ibTop4Bottom4 480 800 = ibTop4Bottom4 ∧
    ValidateGeometry ibBottom8 480 800 = ibBottom8 ∧
    ValidateGeometry ibTop8 480 800 = ibTop8 ∧
    ValidateGeometry ibLeft4Right4 480 800 = ibTop4Bottom4 :=
  ValidateGeometry_portrait 480 800 (by decide)

/-- C7: on a square screen (`width == height`) every ordinal, inside the table
or not, is validated as `ibSquare`. -/
theorem ValidateGeometry_square (g : Geometry) (w : Nat) :
    ValidateGeometry g w w = ibSquare := by
  simp [ValidateGeometry]

/-- C8: an ordinal outside the template table (`g >= 9`) is validated exactly
as `ibTop4Bottom4` is, and the result is an ordinal of the table; the function
is total, so no input produces an error. -/
theorem ValidateGeometry_out_of_range (g : Geometry) (w h : Nat) (hg : 9 ≤ g) :
    ValidateGeometry g w h = ValidateGeometry ibTop4Bottom4 w h ∧
    ValidateGeometry g w h < geometry_counts.length :=
  ⟨ValidateGeometry_clamp g w h hg, ValidateGeometry_lt g w h⟩

/-- Witness of C8 on the largest `unsigned` ordinal and a screen of
480 x 800. -/
theorem ValidateGeometry_out_of_range_witness :
    ValidateGeometry 4294967295 480 800 = ValidateGeometry ibTop4Bottom4 480 800 ∧
    ValidateGeometry 4294967295 480 800 < geometry_counts.length :=
  ValidateGeometry_out_of_range 4294967295 480 800 (by decide)

/-- C9: `LoadGeometryFromProfile` validates the default template when the
profile holds no value, and validates the stored value, taken as a raw
ordinal, when it holds one. -/
theorem LoadGeometryFromProfile_eq (w h : Nat) :
    LoadGeometryFromProfile none w h = ValidateGeometry ibTop4Bottom4 w h ∧
    ∀ v : Nat, LoadGeometryFromProfile (some v) w h = ValidateGeometry v w h :=
  ⟨rfl, fun _ => rfl⟩

/-- C10: whatever the profile holds and whatever the screen size, the geometry
that `LoadGeometryFromProfile` returns (and any result of `ValidateGeometry`)
is one of the nine templates; the lookup `geometry_counts[geometry]` of
`Calculate` is then inside the table, the count found there is at most
`MAX_INFOBOXES`, and `Calculate` returns a layout, for every rectangle: none of
its assertions fails. -/
theorem Calculate_after_LoadGeometry_ok (profile : Option Nat) (w h : Nat) :
    LoadGeometryFromProfile profile w h < 9 ∧
    (∀ g : Geometry, ValidateGeometry g w h < 9) ∧
    (∃ count, geometry_counts[LoadGeometryFromProfile profile w h]? = some count ∧
      count ≤ MAX_INFOBOXES) ∧
    ∀ (chr : ℚ) (rc : RECT), ∃ layout,
      Calculate chr rc (LoadGeometryFromProfile profile w h) = .ok layout ∧
      layout.count ≤ MAX_INFOBOXES ∧
      geometry_counts[LoadGeometryFromProfile profile w h]? = some layout.count := by
  have hlt : LoadGeometryFromProfile profile w h < 9 := ValidateGeometry_lt _ w h
  refine ⟨hlt, fun g => ValidateGeometry_lt g w h, geometry_counts_le _ hlt, ?_⟩
  intro chr rc
  obtain ⟨layout, hok, hcount⟩ := Calculate_count_table chr rc _ hlt
  obtain ⟨c, hc, hle⟩ := geometry_counts_le _ hlt
  refine ⟨layout, hok, ?_, hcount⟩
  rw [hcount] at hc
  cases hc
  exact hle


/-! ## Tiles and the rectangle -/

/-- No tile of `Calculate` shares a pixel with the remaining rectangle. -/
theorem Calculate_disjoint_aux (chr : ℚ) (rc : RECT) (g : Geometry) (hg : g < 9) :
    ∃ layout, Calculate chr rc g = .ok layout ∧
      ∀ i, i < layout.count →
        ∃ t, layout.tile i = some t ∧ ¬ t.overlaps layout.remaining := by
  interval_cases g
  · refine ⟨_, Calculate_ibTop4Bottom4 chr rc, ?_⟩
    intro i hi
    simp only at hi
    interval_cases i <;> refine ⟨_, rfl, ?_⟩ <;>
      rintro ⟨x, y, ⟨a1, a2, a3, a4⟩, ⟨b1, b2, b3, b4⟩⟩ <;> simp only at * <;> omega
  · refine ⟨_, Calculate_ibBottom8 chr rc, ?_⟩
    intro i hi
    simp only at hi
    interval_cases i <;> refine ⟨_, rfl, ?_⟩ <;>
      rintro ⟨x, y, ⟨a1, a2, a3, a4⟩, ⟨b1, b2, b3, b4⟩⟩ <;> simp only at * <;> omega
  · refine ⟨_, Calculate_ibTop8 chr rc, ?_⟩
    intro i hi
    simp only at hi
    interval_cases i <;> refine ⟨_, rfl, ?_⟩ <;>
      rintro ⟨x, y, ⟨a1, a2, a3, a4⟩, ⟨b1, b2, b3, b4⟩⟩ <;> simp only at * <;> omega
  · refine ⟨_, Calculate_ibLeft4Right4 chr rc, ?_⟩
    intro i hi
    simp only at hi
    interval_cases i <;> refine ⟨_, rfl, ?_⟩ <;>
      rintro ⟨x, y, ⟨a1, a2, a3, a4⟩, ⟨b1, b2, b3, b4⟩⟩ <;> simp only at * <;> omega
  · refine ⟨_, Calculate_ibLeft8 chr rc, ?_⟩
    intro i hi
    simp only at hi
    interval_cases i <;> refine ⟨_, rfl, ?_⟩ <;>
      rintro ⟨x, y, ⟨a1, a2, a3, a4⟩, ⟨b1, b2, b3, b4⟩⟩ <;> simp only at * <;> omega
  · refine ⟨_, Calculate_ibRight8 chr rc, ?_⟩
    intro i hi
    simp only at hi
    interval_cases i <;> refine ⟨_, rfl, ?_⟩ <;>
      rintro ⟨x, y, ⟨a1, a2, a3, a4⟩, ⟨b1, b2, b3, b4⟩⟩ <;> simp only at * <;> omega
  · refine ⟨_, Calculate_ibGNav chr rc, ?_⟩
    intro i hi
    simp only at hi
    interval_cases i <;> refine ⟨_, rfl, ?_⟩ <;>
      rintro ⟨x, y, ⟨a1, a2, a3, a4⟩, ⟨b1, b2, b3, b4⟩⟩ <;> simp only at * <;> omega
  · refine ⟨_, Calculate_ibSquare chr rc, ?_⟩
    intro i hi
    simp only at hi
    interval_cases i <;> refine ⟨_, rfl, ?_⟩ <;>
      rintro ⟨x, y, ⟨a1, a2, a3, a4⟩, ⟨b1, b2, b3, b4⟩⟩ <;> simp only at * <;> omega
  · refine ⟨_, Calculate_ibRight12 chr rc, ?_⟩
    intro i hi
    simp only at hi
    interval_cases i <;> refine ⟨_, rfl, ?_⟩ <;>
      rintro ⟨x, y, ⟨a1, a2, a3, a4⟩, ⟨b1, b2, b3, b4⟩⟩ <;> simp only at * <;> omega

/-- The tile width of `ibLeft8` for a width of 100 and a ratio of 2 is 65. -/
theorem column_width_100 : truncate ((((100 : Int) - 0 : Int) : ℚ) / 2 * 1.3) = 65 := by
  norm_num [truncate]

/-- Below a ratio of 2.6 two columns need not fit: with a ratio of 2, on the
rectangle `(0, 0, 100, 100)`, `Calculate` on `ibLeft8` gives tiles of width 65
and tile 4 is `(65, 0, 130, 25)`, which passes the right edge. -/
theorem Calculate_tile_outside_small_ratio :
    ∃ layout, Calculate 2 ⟨0, 0, 100, 100⟩ ibLeft8 = .ok layout ∧
      4 < layout.count ∧
      layout.tile 4 = some ⟨65, 0, 130, 25⟩ ∧
      ¬ RECT.within ⟨65, 0, 130, 25⟩ ⟨0, 0, 100, 100⟩ := by
  refine ⟨_, Calculate_ibLeft8 _ _, by decide, ?_, by decide⟩
  have e := column_width_100
  simp only [Layout.tile, List.getD_cons_zero, List.getD_cons_succ] at e ⊢
  rw [e]
  rfl

/-- The tile width of `ibSquare` for a width of 480 is 96. -/
theorem square_width_480 : truncate ((((480 : Int) - 0 : Int) : ℚ) * 0.2) = 96 := by
  norm_num [truncate]

/-- A slot past the written ones reads as not written. -/
theorem getD_none_tail (k : Nat) (l : List (Option RECT)) (hl : ∀ x ∈ l, x = none) :
    l.getD k none = none := by
  rw [List.getD_eq_getElem?_getD]
  cases h : l[k]? with
  | none => rfl
  | some x =>
    have hx : x ∈ l := List.getElem?_mem h
    simp [hl x hx]

/-- C13: on the rectangle `(0, 0, 480, 480)`, whatever the profile holds, the
geometry that `LoadGeometryFromProfile` (called through `Init`) resolves is
`ibSquare`, and `Calculate` on it gives exactly 5 tiles, tile `i` being
`(384, 96*i, 480, 96*(i+1))`: right edge 480, left edge `480 - 96 = 384`,
stacked top to bottom; no other slot is written; the remaining rectangle is
`(0, 0, 384, 480)`; the tile width is 96, which is also `round(480 * 0.2)`. -/
theorem Calculate_square_screen (profile : Option Nat) (chr : ℚ) :
    LoadGeometryFromProfile profile 480 480 = ibSquare ∧
    Init profile ⟨0, 0, 480, 480⟩ = ibSquare ∧
    ∃ layout, Calculate chr ⟨0, 0, 480, 480⟩ (Init profile ⟨0, 0, 480, 480⟩) = .ok layout ∧
      layout.count = 5 ∧
      layout.control_width = 96 ∧
      round ((480 : ℚ) * 0.2) = 96 ∧
      (∀ i : Nat, i < 5 → layout.tile i = some ⟨384, 96 * i, 480, 96 * (i + 1)⟩) ∧
      (∀ i : Nat, 5 ≤ i → layout.tile i = none) ∧
      layout.remaining = ⟨0, 0, 384, 480⟩ := by
  have hload : LoadGeometryFromProfile profile 480 480 = ibSquare := by
    simp [LoadGeometryFromProfile, ValidateGeometry]
  have hinit : Init profile ⟨0, 0, 480, 480⟩ = ibSquare := by
    have e : toUnsigned ((480 : Int) - 0) = 480 := by decide
    simp only [Init, e]
    exact hload
  refine ⟨hload, hinit, ?_⟩
  rw [hinit]
  have ew := square_width_480
  have eh : ((480 : Int) - 0).tdiv 5 = 96 := by decide
  refine ⟨_, Calculate_ibSquare chr _, rfl, ew, ?_, ?_, ?_, ?_⟩
  · rw [round_eq, Int.floor_eq_iff]; norm_num
  · intro i hi
    simp only [ew, eh]
    interval_cases i <;> rfl
  · intro i hi
    obtain ⟨k, rfl⟩ : ∃ k, i = k + 5 := ⟨i - 5, by omega⟩
    exact getD_none_tail k _ (by simp)
  · simp only [ew]
    rfl


/-! ## The rectangle invariant -/

/-- Every tile of `Calculate` has `left <= right` and `top <= bottom`; the
remaining rectangle has them when `CONTROLHEIGHTRATIO` is at least 2.6 and,
for `ibGNav` and `ibRight12`, two tile widths fit in the width. -/
theorem Calculate_ordered_aux (chr : ℚ) (hchr : 0 < chr) (rc : RECT) (g : Geometry)
    (hg : g < 9) (hw : rc.left < rc.right) (hh : rc.top < rc.bottom) :
    ∃ layout, Calculate chr rc g = .ok layout ∧
      (∀ i, i < layout.count →
        ∃ t, layout.tile i = some t ∧ t.left ≤ t.right ∧ t.top ≤ t.bottom) ∧
      (13 / 5 ≤ chr →
        (g = ibGNav ∨ g = ibRight12 →
          2 * truncate ((((rc.bottom - rc.top).tdiv 6 : Int) : ℚ) * 1.44) ≤
            rc.right - rc.left) →
        layout.remaining.left ≤ layout.remaining.right ∧
          layout.remaining.top ≤ layout.remaining.bottom) := by
  have hW : 0 ≤ rc.right - rc.left := by omega
  have hH : 0 ≤ rc.bottom - rc.top := by omega
  have hW2 : 0 ≤ 2 * (rc.right - rc.left) := by omega
  have hH2 : 0 ≤ 2 * (rc.bottom - rc.top) := by omega
  have hWq : (0 : ℚ) ≤ ((rc.right - rc.left : Int) : ℚ) := by exact_mod_cast hW
  have hHq : (0 : ℚ) ≤ ((rc.bottom - rc.top : Int) : ℚ) := by exact_mod_cast hH
  have r0 : 0 ≤ truncate (((rc.bottom - rc.top : Int) : ℚ) / chr) :=
    truncate_nonneg (div_nonneg hHq hchr.le)
  have c0 : 0 ≤ truncate (((rc.right - rc.left : Int) : ℚ) / chr * 1.3) :=
    truncate_nonneg (mul_nonneg (div_nonneg hWq hchr.le) (by norm_num))
  obtain ⟨s1, s2⟩ := square_width_bounds hW
  obtain ⟨w1, w2⟩ := tdiv_bounds hW2 (show (0 : Int) < 8 by decide)
  obtain ⟨h1, h2⟩ := tdiv_bounds hH2 (show (0 : Int) < 8 by decide)
  obtain ⟨h61, h62⟩ := tdiv_bounds hH (show (0 : Int) < 6 by decide)
  obtain ⟨h51, h52⟩ := tdiv_bounds hH (show (0 : Int) < 5 by decide)
  have a1 := aspect_width_nonneg h61
  interval_cases g
  · refine ⟨_, Calculate_ibTop4Bottom4 chr rc, ?_, ?_⟩
    · intro i hi
      simp only at hi
      interval_cases i <;> refine ⟨_, rfl, ?_⟩ <;> dsimp only <;> omega
    · intro h26 hfit
      obtain ⟨r1, r2⟩ := ratio_bounds h26 hH
      obtain ⟨c1, c2⟩ := column_width_bounds h26 hW
      dsimp only
      omega
  · refine ⟨_, Calculate_ibBottom8 chr rc, ?_, ?_⟩
    · intro i hi
      simp only at hi
      interval_cases i <;> refine ⟨_, rfl, ?_⟩ <;> dsimp only <;> omega
    · intro h26 hfit
      obtain ⟨r1, r2⟩ := ratio_bounds h26 hH
      obtain ⟨c1, c2⟩ := column_width_bounds h26 hW
      dsimp only
      omega
  · refine ⟨_, Calculate_ibTop8 chr rc, ?_, ?_⟩
    · intro i hi
      simp only at hi
      interval_cases i <;> refine ⟨_, rfl, ?_⟩ <;> dsimp only <;> omega
    · intro h26 hfit
      obtain ⟨r1, r2⟩ := ratio_bounds h26 hH
      obtain ⟨c1, c2⟩ := column_width_bounds h26 hW
      dsimp only
      omega
  · refine ⟨_, Calculate_ibLeft4Right4 chr rc, ?_, ?_⟩
    · intro i hi
      simp only at hi
      interval_cases i <;> refine ⟨_, rfl, ?_⟩ <;> dsimp only <;> omega
    · intro h26 hfit
      obtain ⟨r1, r2⟩ := ratio_bounds h26 hH
      obtain ⟨c1, c2⟩ := column_width_bounds h26 hW
      dsimp only
      omega
  · refine ⟨_, Calculate_ibLeft8 chr rc, ?_, ?_⟩
    · intro i hi
      simp only at hi
      interval_cases i <;> refine ⟨_, rfl, ?_⟩ <;> dsimp only <;> omega
    · intro h26 hfit
      obtain ⟨r1, r2⟩ := ratio_bounds h26 hH
      obtain ⟨c1, c2⟩ := column_width_bounds h26 hW
      dsimp only
      omega
  · refine ⟨_, Calculate_ibRight8 chr rc, ?_, ?_⟩
    · intro i hi
      simp only at hi
      interval_cases i <;> refine ⟨_, rfl, ?_⟩ <;> dsimp only <;> omega
    · intro h26 hfit
      obtain ⟨r1, r2⟩ := ratio_bounds h26 hH
      obtain ⟨c1, c2⟩ := column_width_bounds h26 hW
      dsimp only
      omega
  · refine ⟨_, Calculate_ibGNav chr rc, ?_, ?_⟩
    · intro i hi
      simp only at hi
      interval_cases i <;> refine ⟨_, rfl, ?_⟩ <;> dsimp only <;> omega
    · intro h26 hfit
      have hfit := hfit (by decide)
      obtain ⟨r1, r2⟩ := ratio_bounds h26 hH
      obtain ⟨c1, c2⟩ := column_width_bounds h26 hW
      dsimp only
      omega
  · refine ⟨_, Calculate_ibSquare chr rc, ?_, ?_⟩
    · intro i hi
      simp only at hi
      interval_cases i <;> refine ⟨_, rfl, ?_⟩ <;> dsimp only <;> omega
    · intro h26 hfit
      obtain ⟨r1, r2⟩ := ratio_bounds h26 hH
      obtain ⟨c1, c2⟩ := column_width_bounds h26 hW
      dsimp only
      omega
  · refine ⟨_, Calculate_ibRight12 chr rc, ?_, ?_⟩
    · intro i hi
      simp only at hi
      interval_cases i <;> refine ⟨_, rfl, ?_⟩ <;> dsimp only <;> omega
    · intro h26 hfit
      have hfit := hfit (by decide)
      obtain ⟨r1, r2⟩ := ratio_bounds h26 hH
      obtain ⟨c1, c2⟩ := column_width_bounds h26 hW
      dsimp only
      omega

/-- The tile width of `ibGNav` for a height of 600 is 144. -/
theorem aspect_width_600_sub :
    truncate (((((600 : Int) - 0).tdiv 6 : Int) : ℚ) * 1.44) = 144 := by
  norm_num [truncate, Int.tdiv]

/-- C17, counterexample: on the rectangle `(0, 0, 10, 600)`, of width 10 and
height 600, `Calculate` on `ibGNav` returns the remaining rectangle
`(0, 0, -278, 600)`, whose right edge is left of its left edge. -/
theorem Calculate_remaining_inverted :
    ∃ layout, Calculate (37 / 5) ⟨0, 0, 10, 600⟩ ibGNav = .ok layout ∧
      layout.remaining = ⟨0, 0, -278, 600⟩ ∧
      ¬ layout.remaining.left ≤ layout.remaining.right := by
  have e := aspect_width_600_sub
  refine ⟨_, Calculate_ibGNav _ _, ?_, ?_⟩
  · simp only [e]
    rfl
  · simp only [e]
    decide

/-! ## The validated template fits -/

example (chr : ℚ) (rc : RECT) : ∃ layout, Calculate chr rc ibGNav = .ok layout ∧
    layout.positions = (Layout.uninitialised.replay (CalculateStores chr rc ibGNav)).positions ∧
    (CalculateStores chr rc ibGNav).map Prod.fst = [6, 7, 8, 0, 1, 2, 3, 4, 5] :=
  ⟨_, rfl, rfl, rfl⟩

/-- The slots of the layout that `Calculate` returns are those that its stores
leave in the array. -/
theorem Calculate_positions_replay (chr : ℚ) (rc : RECT) (g : Geometry) (hg : g < 9) :
    ∃ layout, Calculate chr rc g = .ok layout ∧
      layout.positions =
        (Layout.uninitialised.replay (CalculateStores chr rc g)).positions := by
  interval_cases g
  · exact ⟨_, Calculate_ibTop4Bottom4 chr rc, rfl⟩
  · exact ⟨_, Calculate_ibBottom8 chr rc, rfl⟩
  · exact ⟨_, Calculate_ibTop8 chr rc, rfl⟩
  · exact ⟨_, Calculate_ibLeft4Right4 chr rc, rfl⟩
  · exact ⟨_, Calculate_ibLeft8 chr rc, rfl⟩
  · exact ⟨_, Calculate_ibRight8 chr rc, rfl⟩
  · exact ⟨_, Calculate_ibGNav chr rc, rfl⟩
  · exact ⟨_, Calculate_ibSquare chr rc, rfl⟩
  · exact ⟨_, Calculate_ibRight12 chr rc, rfl⟩


/-! ## The loop of `MakeTopRow` -/

/-- The loop of `MakeTopRow` changes nothing but `positions`, and keeps its
length. -/
theorem MakeTopRowLoop_fields (top bottom : Int) (n : Nat) :
    ∀ (layout : Layout) (p : Nat) (left : Int),
      (MakeTopRowLoop top bottom n layout p left).control_width = layout.control_width ∧
      (MakeTopRowLoop top bottom n layout p left).control_height = layout.control_height ∧
      (MakeTopRowLoop top bottom n layout p left).count = layout.count ∧
      (MakeTopRowLoop top bottom n layout p left).remaining = layout.remaining ∧
      (MakeTopRowLoop top bottom n layout p left).positions.length =
        layout.positions.length := by
  induction n with
  | zero => intro layout p left; exact ⟨rfl, rfl, rfl, rfl, rfl⟩
  | succ n ih =>
    intro layout p left
    obtain ⟨h1, h2, h3, h4, h5⟩ :=
      ih (layout.store p ⟨left, top, left + layout.control_width, bottom⟩) (p + 1)
        (left + layout.control_width)
    refine ⟨h1, h2, h3, h4, ?_⟩
    rw [MakeTopRowLoop, h5]
    simp [Layout.store]

/-- A list that is a rearrangement of `0, ..., c - 1` holds each index below
`c` once and no other index. -/
theorem count_of_perm_range (l : List Nat) (c : Nat) (h : l.Perm (List.range c)) (i : Nat) :
    l.count i = if i < c then 1 else 0 := by
  rw [h.count_eq]
  split_ifs with hi
  · exact List.count_eq_one_of_mem (List.nodup_range c) (List.mem_range.mpr hi)
  · exact List.count_eq_zero_of_not_mem (fun hm => hi (List.mem_range.mp hm))

/-- C19: for every template, `Calculate` returns a layout whose slots are the
replay of the stores of its tiling calls; among these stores each slot with
index in `[0, count)` occurs exactly once and no slot with index `>= count`
occurs; `count` is at most `MAX_INFOBOXES` (12); so the slots below `count`
each hold a tile and the others were never written. -/
theorem Calculate_writes_each_slot_once (chr : ℚ) (rc : RECT) (g : Geometry) (hg : g < 9) :
    ∃ layout, Calculate chr rc g = .ok layout ∧
      layout.positions =
        (Layout.uninitialised.replay (CalculateStores chr rc g)).positions ∧
      (∀ i : Nat, ((CalculateStores chr rc g).map Prod.fst).count i =
        if i < layout.count then 1 else 0) ∧
      layout.count ≤ MAX_INFOBOXES ∧
      (∀ i : Nat, i < layout.count → ∃ t, layout.tile i = some t) ∧
      (∀ i : Nat, layout.count ≤ i → layout.tile i = none) := by
  interval_cases g
  · refine ⟨_, Calculate_ibTop4Bottom4 chr rc, rfl, ?_, ?_, ?_, ?_⟩
    · exact count_of_perm_range [0, 1, 2, 3, 4, 5, 6, 7] 8 (by decide)
    · show (8 : Nat) ≤ 12
      decide
    · intro i hi
      simp only at hi
      interval_cases i <;> exact ⟨_, rfl⟩
    · intro i hi
      obtain ⟨k, rfl⟩ : ∃ k, i = k + 8 := ⟨i - 8, by simp only at hi; omega⟩
      exact getD_none_tail k _ (by simp)
  · refine ⟨_, Calculate_ibBottom8 chr rc, rfl, ?_, ?_, ?_, ?_⟩
    · exact count_of_perm_range [4, 5, 6, 7, 0, 1, 2, 3] 8 (by decide)
    · show (8 : Nat) ≤ 12
      decide
    · intro i hi
      simp only at hi
      interval_cases i <;> exact ⟨_, rfl⟩
    · intro i hi
      obtain ⟨k, rfl⟩ : ∃ k, i = k + 8 := ⟨i - 8, by simp only at hi; omega⟩
      exact getD_none_tail k _ (by simp)
  · refine ⟨_, Calculate_ibTop8 chr rc, rfl, ?_, ?_, ?_, ?_⟩
    · exact count_of_perm_range [0, 1, 2, 3, 4, 5, 6, 7] 8 (by decide)
    · show (8 : Nat) ≤ 12
      decide
    · intro i hi
      simp only at hi
      interval_cases i <;> exact ⟨_, rfl⟩
    · intro i hi
      obtain ⟨k, rfl⟩ : ∃ k, i = k + 8 := ⟨i - 8, by simp only at hi; omega⟩
      exact getD_none_tail k _ (by simp)
  · refine ⟨_, Calculate_ibLeft4Right4 chr rc, rfl, ?_, ?_, ?_, ?_⟩
    · exact count_of_perm_range [0, 1, 2, 3, 4, 5, 6, 7] 8 (by decide)
    · show (8 : Nat) ≤ 12
      decide
    · intro i hi
      simp only at hi
      interval_cases i <;> exact ⟨_, rfl⟩
    · intro i hi
      obtain ⟨k, rfl⟩ : ∃ k, i = k + 8 := ⟨i - 8, by simp only at hi; omega⟩
      exact getD_none_tail k _ (by simp)
  · refine ⟨_, Calculate_ibLeft8 chr rc, rfl, ?_, ?_, ?_, ?_⟩
    · exact count_of_perm_range [0, 1, 2, 3, 4, 5, 6, 7] 8 (by decide)
    · show (8 : Nat) ≤ 12
      decide
    · intro i hi
      simp only at hi
      interval_cases i <;> exact ⟨_, rfl⟩
    · intro i hi
      obtain ⟨k, rfl⟩ : ∃ k, i = k + 8 := ⟨i - 8, by simp only at hi; omega⟩
      exact getD_none_tail k _ (by simp)
  · refine ⟨_, Calculate_ibRight8 chr rc, rfl, ?_, ?_, ?_, ?_⟩
    · exact count_of_perm_range [4, 5, 6, 7, 0, 1, 2, 3] 8 (by decide)
    · show (8 : Nat) ≤ 12
      decide
    · intro i hi
      simp only at hi
      interval_cases i <;> exact ⟨_, rfl⟩
    · intro i hi
      obtain ⟨k, rfl⟩ : ∃ k, i = k + 8 := ⟨i - 8, by simp only at hi; omega⟩
      exact getD_none_tail k _ (by simp)
  · refine ⟨_, Calculate_ibGNav chr rc, rfl, ?_, ?_, ?_, ?_⟩
    · exact count_of_perm_range [6, 7, 8, 0, 1, 2, 3, 4, 5] 9 (by decide)
    · show (9 : Nat) ≤ 12
      decide
    · intro i hi
      simp only at hi
      interval_cases i <;> exact ⟨_, rfl⟩
    · intro i hi
      obtain ⟨k, rfl⟩ : ∃ k, i = k + 9 := ⟨i - 9, by simp only at hi; omega⟩
      exact getD_none_tail k _ (by simp)
  · refine ⟨_, Calculate_ibSquare chr rc, rfl, ?_, ?_, ?_, ?_⟩
    · exact count_of_perm_range [0, 1, 2, 3, 4] 5 (by decide)
    · show (5 : Nat) ≤ 12
      decide
    · intro i hi
      simp only at hi
      interval_cases i <;> exact ⟨_, rfl⟩
    · intro i hi
      obtain ⟨k, rfl⟩ : ∃ k, i = k + 5 := ⟨i - 5, by simp only at hi; omega⟩
      exact getD_none_tail k _ (by simp)
  · refine ⟨_, Calculate_ibRight12 chr rc, rfl, ?_, ?_, ?_, ?_⟩
    · exact count_of_perm_range [6, 7, 8, 9, 10, 11, 0, 1, 2, 3, 4, 5] 12 (by decide)
    · show (12 : Nat) ≤ 12
      decide
    · intro i hi
      simp only at hi
      interval_cases i <;> exact ⟨_, rfl⟩
    · intro i hi
      obtain ⟨k, rfl⟩ : ∃ k, i = k + 12 := ⟨i - 12, by simp only at hi; omega⟩
      exact getD_none_tail k _ (by simp)

/-- Witness of C19: `ibGNav` on the rectangle `(0, 0, 800, 480)` with a ratio
of 7.4. -/
theorem Calculate_writes_each_slot_once_witness :
    ∃ layout, Calculate (37 / 5) ⟨0, 0, 800, 480⟩ ibGNav = .ok layout ∧
      layout.positions =
        (Layout.uninitialised.replay
          (CalculateStores (37 / 5) ⟨0, 0, 800, 480⟩ ibGNav)).positions ∧
      (∀ i : Nat, ((CalculateStores (37 / 5) ⟨0, 0, 800, 480⟩ ibGNav).map Prod.fst).count i =
        if i < layout.count then 1 else 0) ∧
      layout.count ≤ MAX_INFOBOXES ∧
      (∀ i : Nat, i < layout.count → ∃ t, layout.tile i = some t) ∧
      (∀ i : Nat, layout.count ≤ i → layout.tile i = none) :=
  Calculate_writes_each_slot_once (37 / 5) ⟨0, 0, 800, 480⟩ ibGNav (by decide)


/-! ## Tiles do not cover one another -/

/-- Two tiles of `Calculate` in different slots share no pixel, when
`CONTROLHEIGHTRATIO` is at least 2.6. -/
theorem Calculate_pairwise_aux (chr : ℚ) (hchr : 13 / 5 ≤ chr) (rc : RECT) (g : Geometry)
    (hg : g < 9) (hw : rc.left < rc.right) (hh : rc.top < rc.bottom) :
    ∃ layout, Calculate chr rc g = .ok layout ∧
      ∀ i j, i < layout.count → j < layout.count → i ≠ j →
        ∃ ti tj, layout.tile i = some ti ∧ layout.tile j = some tj ∧ ¬ ti.overlaps tj := by
  have hW : 0 ≤ rc.right - rc.left := by omega
  have hH : 0 ≤ rc.bottom - rc.top := by omega
  obtain ⟨r1, r2⟩ := ratio_bounds hchr hH
  obtain ⟨c1, c2⟩ := column_width_bounds hchr hW
  interval_cases g
  · refine ⟨_, Calculate_ibTop4Bottom4 chr rc, ?_⟩
    intro i j hi hj hij
    simp only at hi hj
    interval_cases i <;> interval_cases j <;> first
      | exact absurd rfl hij
      | (refine ⟨_, _, rfl, rfl, ?_⟩
         rintro ⟨x, y, ⟨a1, a2, a3, a4⟩, ⟨b1, b2, b3, b4⟩⟩
         simp only at a1 a2 a3 a4 b1 b2 b3 b4
         omega)
  · refine ⟨_, Calculate_ibBottom8 chr rc, ?_⟩
    intro i j hi hj hij
    simp only at hi hj
    interval_cases i <;> interval_cases j <;> first
      | exact absurd rfl hij
      | (refine ⟨_, _, rfl, rfl, ?_⟩
         rintro ⟨x, y, ⟨a1, a2, a3, a4⟩, ⟨b1, b2, b3, b4⟩⟩
         simp only at a1 a2 a3 a4 b1 b2 b3 b4
         omega)
  · refine ⟨_, Calculate_ibTop8 chr rc, ?_⟩
    intro i j hi hj hij
    simp only at hi hj
    interval_cases i <;> interval_cases j <;> first
      | exact absurd rfl hij
      | (refine ⟨_, _, rfl, rfl, ?_⟩
         rintro ⟨x, y, ⟨a1, a2, a3, a4⟩, ⟨b1, b2, b3, b4⟩⟩
         simp only at a1 a2 a3 a4 b1 b2 b3 b4
         omega)
  · refine ⟨_, Calculate_ibLeft4Right4 chr rc, ?_⟩
    intro i j hi hj hij
    simp only at hi hj
    interval_cases i <;> interval_cases j <;> first
      | exact absurd rfl hij
      | (refine ⟨_, _, rfl, rfl, ?_⟩
         rintro ⟨x, y, ⟨a1, a2, a3, a4⟩, ⟨b1, b2, b3, b4⟩⟩
         simp only at a1 a2 a3 a4 b1 b2 b3 b4
         omega)
  · refine ⟨_, Calculate_ibLeft8 chr rc, ?_⟩
    intro i j hi hj hij
    simp only at hi hj
    interval_cases i <;> interval_cases j <;> first
      | exact absurd rfl hij
      | (refine ⟨_, _, rfl, rfl, ?_⟩
         rintro ⟨x, y, ⟨a1, a2, a3, a4⟩, ⟨b1, b2, b3, b4⟩⟩
         simp only at a1 a2 a3 a4 b1 b2 b3 b4
         omega)
  · refine ⟨_, Calculate_ibRight8 chr rc, ?_⟩
    intro i j hi hj hij
    simp only at hi hj
    interval_cases i <;> interval_cases j <;> first
      | exact absurd rfl hij
      | (refine ⟨_, _, rfl, rfl, ?_⟩
         rintro ⟨x, y, ⟨a1, a2, a3, a4⟩, ⟨b1, b2, b3, b4⟩⟩
         simp only at a1 a2 a3 a4 b1 b2 b3 b4
         omega)
  · refine ⟨_, Calculate_ibGNav chr rc, ?_⟩
    intro i j hi hj hij
    simp only at hi hj
    interval_cases i <;> interval_cases j <;> first
      | exact absurd rfl hij
      | (refine ⟨_, _, rfl, rfl, ?_⟩
         rintro ⟨x, y, ⟨a1, a2, a3, a4⟩, ⟨b1, b2, b3, b4⟩⟩
         simp only at a1 a2 a3 a4 b1 b2 b3 b4
         omega)
  · refine ⟨_, Calculate_ibSquare chr rc, ?_⟩
    intro i j hi hj hij
    simp only at hi hj
    interval_cases i <;> interval_cases j <;> first
      | exact absurd rfl hij
      | (refine ⟨_, _, rfl, rfl, ?_⟩
         rintro ⟨x, y, ⟨a1, a2, a3, a4⟩, ⟨b1, b2, b3, b4⟩⟩
         simp only at a1 a2 a3 a4 b1 b2 b3 b4
         omega)
  · refine ⟨_, Calculate_ibRight12 chr rc, ?_⟩
    intro i j hi hj hij
    simp only at hi hj
    interval_cases i <;> interval_cases j <;> first
      | exact absurd rfl hij
      | (refine ⟨_, _, rfl, rfl, ?_⟩
         rintro ⟨x, y, ⟨a1, a2, a3, a4⟩, ⟨b1, b2, b3, b4⟩⟩
         simp only at a1 a2 a3 a4 b1 b2 b3 b4
         omega)

/-- C21: with `CONTROLHEIGHTRATIO` at least 2.6, for every template and every
rectangle with positive width and height, any two tiles of `Calculate` with
different indices below `count` are written and share no pixel (a pixel
`(x, y)` belongs to a tile when `left <= x < right` and `top <= y < bottom`). -/
theorem Calculate_tiles_pairwise_disjoint (chr : ℚ) (hchr : 13 / 5 ≤ chr) (rc : RECT)
    (g : Geometry) (hg : g < 9) (hw : rc.left < rc.right) (hh : rc.top < rc.bottom) :
    ∃ layout, Calculate chr rc g = .ok layout ∧
      ∀ i j, i < layout.count → j < layout.count → i ≠ j →
        ∃ ti tj, layout.tile i = some ti ∧ layout.tile j = some tj ∧ ¬ ti.overlaps tj :=
  Calculate_pairwise_aux chr hchr rc g hg hw hh

/-- Witness of C21: `ibLeft4Right4` on the rectangle `(0, 0, 800, 480)` with a
ratio of 7.4. -/
theorem Calculate_tiles_pairwise_disjoint_witness :
    ∃ layout, Calculate (37 / 5) ⟨0, 0, 800, 480⟩ ibLeft4Right4 = .ok layout ∧
      ∀ i j, i < layout.count → j < layout.count → i ≠ j →
        ∃ ti tj, layout.tile i = some ti ∧ layout.tile j = some tj ∧ ¬ ti.overlaps tj :=
  Calculate_tiles_pairwise_disjoint (37 / 5) (by norm_num) ⟨0, 0, 800, 480⟩ ibLeft4Right4
    (by decide) (by decide) (by decide)

/-! ## The result of `Calculate32`, template by template

Each lemma unfolds `Calculate32` on one template, as was done for `Calculate`;
every sum and difference carries its reduction. -/

/-- Result of `Calculate32` on `ibTop4Bottom4`. -/
theorem Calculate32_ibTop4Bottom4 (chr : ℚ) (rc : RECT) :
    Calculate32 chr rc ibTop4Bottom4 = .ok
      (let w := (wrap32 (2 * wrap32 (rc.right - rc.left))).tdiv 8
       let h := truncate (((wrap32 (rc.bottom - rc.top) : Int) : ℚ) / chr)
       { control_width := w
         control_height := h
         count := 8
         positions :=
          [some ⟨rc.left, rc.top, wrap32 (rc.left + w), wrap32 (rc.top + h)⟩,
           some ⟨wrap32 (rc.left + w), rc.top, wrap32 (wrap32 (rc.left + w) + w), wrap32 (rc.top + h)⟩,
           some ⟨wrap32 (wrap32 (rc.left + w) + w), rc.top, wrap32 (wrap32 (wrap32 (rc.left + w) + w) + w), wrap32 (rc.top + h)⟩,
           some ⟨wrap32 (wrap32 (wrap32 (rc.left + w) + w) + w), rc.top, wrap32 (wrap32 (wrap32 (wrap32 (rc.left + w) + w) + w) + w), wrap32 (rc.top + h)⟩,
           some ⟨rc.left, wrap32 (rc.bottom - h), wrap32 (rc.left + w), wrap32 (wrap32 (rc.bottom - h) + h)⟩,
           some ⟨wrap32 (rc.left + w), wrap32 (rc.bottom - h), wrap32 (wrap32 (rc.left + w) + w), wrap32 (wrap32 (rc.bottom - h) + h)⟩,
           some ⟨wrap32 (wrap32 (rc.left + w) + w), wrap32 (rc.bottom - h), wrap32 (wrap32 (wrap32 (rc.left + w) + w) + w), wrap32 (wrap32 (rc.bottom - h) + h)⟩,
           some ⟨wrap32 (wrap32 (wrap32 (rc.left + w) + w) + w), wrap32 (rc.bottom - h), wrap32 (wrap32 (wrap32 (wrap32 (rc.left + w) + w) + w) + w), wrap32 (wrap32 (rc.bottom - h) + h)⟩,
           none,
           none,
           none,
           none]
         remaining := ⟨rc.left, wrap32 (rc.top + h), rc.right, wrap32 (rc.bottom - h)⟩ }) := by
  rfl

/-- Result of `Calculate32` on `ibBottom8`. -/
theorem Calculate32_ibBottom8 (chr : ℚ) (rc : RECT) :
    Calculate32 chr rc ibBottom8 = .ok
      (let w := (wrap32 (2 * wrap32 (rc.right - rc.left))).tdiv 8
       let h := truncate (((wrap32 (rc.bottom - rc.top) : Int) : ℚ) / chr)
       { control_width := w
         control_height := h
         count := 8
         positions :=
          [some ⟨rc.left, wrap32 (wrap32 (rc.bottom - h) - h), wrap32 (rc.left + w), wrap32 (wrap32 (wrap32 (rc.bottom - h) - h) + h)⟩,
           some ⟨wrap32 (rc.left + w), wrap32 (wrap32 (rc.bottom - h) - h), wrap32 (wrap32 (rc.left + w) + w), wrap32 (wrap32 (wrap32 (rc.bottom - h) - h) + h)⟩,
           some ⟨wrap32 (wrap32 (rc.left + w) + w), wrap32 (wrap32 (rc.bottom - h) - h), wrap32 (wrap32 (wrap32 (rc.left + w) + w) + w), wrap32 (wrap32 (wrap32 (rc.bottom - h) - h) + h)⟩,
           some ⟨wrap32 (wrap32 (wrap32 (rc.left + w) + w) + w), wrap32 (wrap32 (rc.bottom - h) - h), wrap32 (wrap32 (wrap32 (wrap32 (rc.left + w) + w) + w) + w), wrap32 (wrap32 (wrap32 (rc.bottom - h) - h) + h)⟩,
           some ⟨rc.left, wrap32 (rc.bottom - h), wrap32 (rc.left + w), wrap32 (wrap32 (rc.bottom - h) + h)⟩,
           some ⟨wrap32 (rc.left + w), wrap32 (rc.bottom - h), wrap32 (wrap32 (rc.left + w) + w), wrap32 (wrap32 (rc.bottom - h) + h)⟩,
           some ⟨wrap32 (wrap32 (rc.left + w) + w), wrap32 (rc.bottom - h), wrap32 (wrap32 (wrap32 (rc.left + w) + w) + w), wrap32 (wrap32 (rc.bottom - h) + h)⟩,
           some ⟨wrap32 (wrap32 (wrap32 (rc.left + w) + w) + w), wrap32 (rc.bottom - h), wrap32 (wrap32 (wrap32 (wrap32 (rc.left + w) + w) + w) + w), wrap32 (wrap32 (rc.bottom - h) + h)⟩,
           none,
           none,
           none,
           none]
         remaining := ⟨rc.left, rc.top, rc.right, wrap32 (wrap32 (rc.bottom - h) - h)⟩ }) := by
  rfl

/-- Result of `Calculate32` on `ibTop8`. -/
theorem Calculate32_ibTop8 (chr : ℚ) (rc : RECT) :
    Calculate32 chr rc ibTop8 = .ok
      (let w := (wrap32 (2 * wrap32 (rc.right - rc.left))).tdiv 8
       let h := truncate (((wrap32 (rc.bottom - rc.top) : Int) : ℚ) / chr)
       { control_width := w
         control_height := h
         count := 8
         positions :=
          [some ⟨rc.left, rc.top, wrap32 (rc.left + w), wrap32 (rc.top + h)⟩,
           some ⟨wrap32 (rc.left + w), rc.top, wrap32 (wrap32 (rc.left + w) + w), wrap32 (rc.top + h)⟩,
           some ⟨wrap32 (wrap32 (rc.left + w) + w), rc.top, wrap32 (wrap32 (wrap32 (rc.left + w) + w) + w), wrap32 (rc.top + h)⟩,
           some ⟨wrap32 (wrap32 (wrap32 (rc.left + w) + w) + w), rc.top, wrap32 (wrap32 (wrap32 (wrap32 (rc.left + w) + w) + w) + w), wrap32 (rc.top + h)⟩,
           some ⟨rc.left, wrap32 (rc.top + h), wrap32 (rc.left + w), wrap32 (wrap32 (rc.top + h) + h)⟩,
           some ⟨wrap32 (rc.left + w), wrap32 (rc.top + h), wrap32 (wrap32 (rc.left + w) + w), wrap32 (wrap32 (rc.top + h) + h)⟩,
           some ⟨wrap32 (wrap32 (rc.left + w) + w), wrap32 (rc.top + h), wrap32 (wrap32 (wrap32 (rc.left + w) + w) + w), wrap32 (wrap32 (rc.top + h) + h)⟩,
           some ⟨wrap32 (wrap32 (wrap32 (rc.left + w) + w) + w), wrap32 (rc.top + h), wrap32 (wrap32 (wrap32 (wrap32 (rc.left + w) + w) + w) + w), wrap32 (wrap32 (rc.top + h) + h)⟩,
           none,
           none,
           none,
           none]
         remaining := ⟨rc.left, wrap32 (wrap32 (rc.top + h) + h), rc.right, rc.bottom⟩ }) := by
  rfl

/-- Result of `Calculate32` on `ibLeft4Right4`. -/
theorem Calculate32_ibLeft4Right4 (chr : ℚ) (rc : RECT) :
    Calculate32 chr rc ibLeft4Right4 = .ok
      (let w := truncate (((wrap32 (rc.right - rc.left) : Int) : ℚ) / chr * 1.3)
       let h := (wrap32 (2 * wrap32 (rc.bottom - rc.top))).tdiv 8
       { control_width := w
         control_height := h
         count := 8
         positions :=
          [some ⟨rc.left, rc.top, wrap32 (rc.left + w), wrap32 (rc.top + h)⟩,
           some ⟨rc.left, wrap32 (rc.top + h), wrap32 (rc.left + w), wrap32 (wrap32 (rc.top + h) + h)⟩,
           some ⟨rc.left, wrap32 (wrap32 (rc.top + h) + h), wrap32 (rc.left + w), wrap32 (wrap32 (wrap32 (rc.top + h) + h) + h)⟩,
           some ⟨rc.left, wrap32 (wrap32 (wrap32 (rc.top + h) + h) + h), wrap32 (rc.left + w), wrap32 (wrap32 (wrap32 (wrap32 (rc.top + h) + h) + h) + h)⟩,
           some ⟨wrap32 (rc.right - w), rc.top, wrap32 (wrap32 (rc.right - w) + w), wrap32 (rc.top + h)⟩,
           some ⟨wrap32 (rc.right - w), wrap32 (rc.top + h), wrap32 (wrap32 (rc.right - w) + w), wrap32 (wrap32 (rc.top + h) + h)⟩,
           some ⟨wrap32 (rc.right - w), wrap32 (wrap32 (rc.top + h) + h), wrap32 (wrap32 (rc.right - w) + w), wrap32 (wrap32 (wrap32 (rc.top + h) + h) + h)⟩,
           some ⟨wrap32 (rc.right - w), wrap32 (wrap32 (wrap32 (rc.top + h) + h) + h), wrap32 (wrap32 (rc.right - w) + w), wrap32 (wrap32 (wrap32 (wrap32 (rc.top + h) + h) + h) + h)⟩,
           none,
           none,
           none,
           none]
         remaining := ⟨wrap32 (rc.left + w), rc.top, wrap32 (rc.right - w), rc.bottom⟩ }) := by
  rfl

/-- Result of `Calculate32` on `ibLeft8`. -/
theorem Calculate32_ibLeft8 (chr : ℚ) (rc : RECT) :
    Calculate32 chr rc ibLeft8 = .ok
      (let w := truncate (((wrap32 (rc.right - rc.left) : Int) : ℚ) / chr * 1.3)
       let h := (wrap32 (2 * wrap32 (rc.bottom - rc.top))).tdiv 8
       { control_width := w
         control_height := h
         count := 8
         positions :=
          [some ⟨rc.left, rc.top, wrap32 (rc.left + w), wrap32 (rc.top + h)⟩,
           some ⟨rc.left, wrap32 (rc.top + h), wrap32 (rc.left + w), wrap32 (wrap32 (rc.top + h) + h)⟩,
           some ⟨rc.left, wrap32 (wrap32 (rc.top + h) + h), wrap32 (rc.left + w), wrap32 (wrap32 (wrap32 (rc.top + h) + h) + h)⟩,
           some ⟨rc.left, wrap32 (wrap32 (wrap32 (rc.top + h) + h) + h), wrap32 (rc.left + w), wrap32 (wrap32 (wrap32 (wrap32 (rc.top + h) + h) + h) + h)⟩,
           some ⟨wrap32 (rc.left + w), rc.top, wrap32 (wrap32 (rc.left + w) + w), wrap32 (rc.top + h)⟩,
           some ⟨wrap32 (rc.left + w), wrap32 (rc.top + h), wrap32 (wrap32 (rc.left + w) + w), wrap32 (wrap32 (rc.top + h) + h)⟩,
           some ⟨wrap32 (rc.left + w), wrap32 (wrap32 (rc.top + h) + h), wrap32 (wrap32 (rc.left + w) + w), wrap32 (wrap32 (wrap32 (rc.top + h) + h) + h)⟩,
           some ⟨wrap32 (rc.left + w), wrap32 (wrap32 (wrap32 (rc.top + h) + h) + h), wrap32 (wrap32 (rc.left + w) + w), wrap32 (wrap32 (wrap32 (wrap32 (rc.top + h) + h) + h) + h)⟩,
           none,
           none,
           none,
           none]
         remaining := ⟨wrap32 (wrap32 (rc.left + w) + w), rc.top, rc.right, rc.bottom⟩ }) := by
  rfl

/-- Result of `Calculate32` on `ibRight8`. -/
theorem Calculate32_ibRight8 (chr : ℚ) (rc : RECT) :
    Calculate32 chr rc ibRight8 = .ok
      (let w := truncate (((wrap32 (rc.right - rc.left) : Int) : ℚ) / chr * 1.3)
       let h := (wrap32 (2 * wrap32 (rc.bottom - rc.top))).tdiv 8
       { control_width := w
         control_height := h
         count := 8
         positions :=
          [some ⟨wrap32 (wrap32 (rc.right - w) - w), rc.top, wrap32 (wrap32 (wrap32 (rc.right - w) - w) + w), wrap32 (rc.top + h)⟩,
           some ⟨wrap32 (wrap32 (rc.right - w) - w), wrap32 (rc.top + h), wrap32 (wrap32 (wrap32 (rc.right - w) - w) + w), wrap32 (wrap32 (rc.top + h) + h)⟩,
           some ⟨wrap32 (wrap32 (rc.right - w) - w), wrap32 (wrap32 (rc.top + h) + h), wrap32 (wrap32 (wrap32 (rc.right - w) - w) + w), wrap32 (wrap32 (wrap32 (rc.top + h) + h) + h)⟩,
           some ⟨wrap32 (wrap32 (rc.right - w) - w), wrap32 (wrap32 (wrap32 (rc.top + h) + h) + h), wrap32 (wrap32 (wrap32 (rc.right - w) - w) + w), wrap32 (wrap32 (wrap32 (wrap32 (rc.top + h) + h) + h) + h)⟩,
           some ⟨wrap32 (rc.right - w), rc.top, wrap32 (wrap32 (rc.right - w) + w), wrap32 (rc.top + h)⟩,
           some ⟨wrap32 (rc.right - w), wrap32 (rc.top + h), wrap32 (wrap32 (rc.right - w) + w), wrap32 (wrap32 (rc.top + h) + h)⟩,
           some ⟨wrap32 (rc.right - w), wrap32 (wrap32 (rc.top + h) + h), wrap32 (wrap32 (rc.right - w) + w), wrap32 (wrap32 (wrap32 (rc.top + h) + h) + h)⟩,
           some ⟨wrap32 (rc.right - w), wrap32 (wrap32 (wrap32 (rc.top + h) + h) + h), wrap32 (wrap32 (rc.right - w) + w), wrap32 (wrap32 (wrap32 (wrap32 (rc.top + h) + h) + h) + h)⟩,
           none,
           none,
           none,
           none]
         remaining := ⟨rc.left, rc.top, wrap32 (wrap32 (rc.right - w) - w), rc.bottom⟩ }) := by
  rfl

/-- Result of `Calculate32` on `ibGNav`. -/
theorem Calculate32_ibGNav (chr : ℚ) (rc : RECT) :
    Calculate32 chr rc ibGNav = .ok
      (let w := truncate ((((wrap32 (rc.bottom - rc.top)).tdiv 6 : Int) : ℚ) * 1.44)
       let h := (wrap32 (rc.bottom - rc.top)).tdiv 6
       { control_width := w
         control_height := h
         count := 9
         positions :=
          [some ⟨wrap32 (wrap32 (rc.right - w) - w), rc.top, wrap32 (wrap32 (wrap32 (rc.right - w) - w) + w), wrap32 (rc.top + h)⟩,
           some ⟨wrap32 (wrap32 (rc.right - w) - w), wrap32 (rc.top + h), wrap32 (wrap32 (wrap32 (rc.right - w) - w) + w), wrap32 (wrap32 (rc.top + h) + h)⟩,
           some ⟨wrap32 (wrap32 (rc.right - w) - w), wrap32 (wrap32 (rc.top + h) + h), wrap32 (wrap32 (wrap32 (rc.right - w) - w) + w), wrap32 (wrap32 (wrap32 (rc.top + h) + h) + h)⟩,
           some ⟨wrap32 (wrap32 (rc.right - w) - w), wrap32 (wrap32 (wrap32 (rc.top + h) + h) + h), wrap32 (wrap32 (wrap32 (rc.right - w) - w) + w), wrap32 (wrap32 (wrap32 (wrap32 (rc.top + h) + h) + h) + h)⟩,
           some ⟨wrap32 (wrap32 (rc.right - w) - w), wrap32 (wrap32 (wrap32 (wrap32 (rc.top + h) + h) + h) + h), wrap32 (wrap32 (wrap32 (rc.right - w) - w) + w), wrap32 (wrap32 (wrap32 (wrap32 (wrap32 (rc.top + h) + h) + h) + h) + h)⟩,
           some ⟨wrap32 (wrap32 (rc.right - w) - w), wrap32 (wrap32 (wrap32 (wrap32 (wrap32 (rc.top + h) + h) + h) + h) + h), wrap32 (wrap32 (wrap32 (rc.right - w) - w) + w), wrap32 (wrap32 (wrap32 (wrap32 (wrap32 (wrap32 (rc.top + h) + h) + h) + h) + h) + h)⟩,
           some ⟨wrap32 (rc.right - w), wrap32 (rc.top + wrap32 (3 * h)), wrap32 (wrap32 (rc.right - w) + w), wrap32 (wrap32 (rc.top + wrap32 (3 * h)) + h)⟩,
           some ⟨wrap32 (rc.right - w), wrap32 (wrap32 (rc.top + wrap32 (3 * h)) + h), wrap32 (wrap32 (rc.right - w) + w), wrap32 (wrap32 (wrap32 (rc.top + wrap32 (3 * h)) + h) + h)⟩,
           some ⟨wrap32 (rc.right - w), wrap32 (wrap32 (wrap32 (rc.top + wrap32 (3 * h)) + h) + h), wrap32 (wrap32 (rc.right - w) + w), wrap32 (wrap32 (wrap32 (wrap32 (rc.top + wrap32 (3 * h)) + h) + h) + h)⟩,
           none,
           none,
           none]
         remaining := ⟨rc.left, rc.top, wrap32 (wrap32 (rc.right - w) - w), rc.bottom⟩ }) := by
  rfl

/-- Result of `Calculate32` on `ibSquare`. -/
theorem Calculate32_ibSquare (chr : ℚ) (rc : RECT) :
    Calculate32 chr rc ibSquare = .ok
      (let w := truncate (((wrap32 (rc.right - rc.left) : Int) : ℚ) * 0.2)
       let h := (wrap32 (rc.bottom - rc.top)).tdiv 5
       { control_width := w
         control_height := h
         count := 5
         positions :=
          [some ⟨wrap32 (rc.right - w), rc.top, wrap32 (wrap32 (rc.right - w) + w), wrap32 (rc.top + h)⟩,
           some ⟨wrap32 (rc.right - w), wrap32 (rc.top + h), wrap32 (wrap32 (rc.right - w) + w), wrap32 (wrap32 (rc.top + h) + h)⟩,
           some ⟨wrap32 (rc.right - w), wrap32 (wrap32 (rc.top + h) + h), wrap32 (wrap32 (rc.right - w) + w), wrap32 (wrap32 (wrap32 (rc.top + h) + h) + h)⟩,
           some ⟨wrap32 (rc.right - w), wrap32 (wrap32 (wrap32 (rc.top + h) + h) + h), wrap32 (wrap32 (rc.right - w) + w), wrap32 (wrap32 (wrap32 (wrap32 (rc.top + h) + h) + h) + h)⟩,
           some ⟨wrap32 (rc.right - w), wrap32 (wrap32 (wrap32 (wrap32 (rc.top + h) + h) + h) + h), wrap32 (wrap32 (rc.right - w) + w), wrap32 (wrap32 (wrap32 (wrap32 (wrap32 (rc.top + h) + h) + h) + h) + h)⟩,
           none,
           none,
           none,
           none,
           none,
           none,
           none]
         remaining := ⟨rc.left, rc.top, wrap32 (rc.right - w), rc.bottom⟩ }) := by
  rfl

/-- Result of `Calculate32` on `ibRight12`. -/
theorem Calculate32_ibRight12 (chr : ℚ) (rc : RECT) :
    Calculate32 chr rc ibRight12 = .ok
      (let w := truncate ((((wrap32 (rc.bottom - rc.top)).tdiv 6 : Int) : ℚ) * 1.44)
       let h := (wrap32 (rc.bottom - rc.top)).tdiv 6
       { control_width := w
         control_height := h
         count := 12
         positions :=
          [some ⟨wrap32 (wrap32 (rc.right - w) - w), rc.top, wrap32 (wrap32 (wrap32 (rc.right - w) - w) + w), wrap32 (rc.top + h)⟩,
           some ⟨wrap32 (wrap32 (rc.right - w) - w), wrap32 (rc.top + h), wrap32 (wrap32 (wrap32 (rc.right - w) - w) + w), wrap32 (wrap32 (rc.top + h) + h)⟩,
           some ⟨wrap32 (wrap32 (rc.right - w) - w), wrap32 (wrap32 (rc.top + h) + h), wrap32 (wrap32 (wrap32 (rc.right - w) - w) + w), wrap32 (wrap32 (wrap32 (rc.top + h) + h) + h)⟩,
           some ⟨wrap32 (wrap32 (rc.right - w) - w), wrap32 (wrap32 (wrap32 (rc.top + h) + h) + h), wrap32 (wrap32 (wrap32 (rc.right - w) - w) + w), wrap32 (wrap32 (wrap32 (wrap32 (rc.top + h) + h) + h) + h)⟩,
           some ⟨wrap32 (wrap32 (rc.right - w) - w), wrap32 (wrap32 (wrap32 (wrap32 (rc.top + h) + h) + h) + h), wrap32 (wrap32 (wrap32 (rc.right - w) - w) + w), wrap32 (wrap32 (wrap32 (wrap32 (wrap32 (rc.top + h) + h) + h) + h) + h)⟩,
           some ⟨wrap32 (wrap32 (rc.right - w) - w), wrap32 (wrap32 (wrap32 (wrap32 (wrap32 (rc.top + h) + h) + h) + h) + h), wrap32 (wrap32 (wrap32 (rc.right - w) - w) + w), wrap32 (wrap32 (wrap32 (wrap32 (wrap32 (wrap32 (rc.top + h) + h) + h) + h) + h) + h)⟩,
           some ⟨wrap32 (rc.right - w), rc.top, wrap32 (wrap32 (rc.right - w) + w), wrap32 (rc.top + h)⟩,
           some ⟨wrap32 (rc.right - w), wrap32 (rc.top + h), wrap32 (wrap32 (rc.right - w) + w), wrap32 (wrap32 (rc.top + h) + h)⟩,
           some ⟨wrap32 (rc.right - w), wrap32 (wrap32 (rc.top + h) + h), wrap32 (wrap32 (rc.right - w) + w), wrap32 (wrap32 (wrap32 (rc.top + h) + h) + h)⟩,
           some ⟨wrap32 (rc.right - w), wrap32 (wrap32 (wrap32 (rc.top + h) + h) + h), wrap32 (wrap32 (rc.right - w) + w), wrap32 (wrap32 (wrap32 (wrap32 (rc.top + h) + h) + h) + h)⟩,
           some ⟨wrap32 (rc.right - w), wrap32 (wrap32 (wrap32 (wrap32 (rc.top + h) + h) + h) + h), wrap32 (wrap32 (rc.right - w) + w), wrap32 (wrap32 (wrap32 (wrap32 (wrap32 (rc.top + h) + h) + h) + h) + h)⟩,
           some ⟨wrap32 (rc.right - w), wrap32 (wrap32 (wrap32 (wrap32 (wrap32 (rc.top + h) + h) + h) + h) + h), wrap32 (wrap32 (rc.right - w) + w), wrap32 (wrap32 (wrap32 (wrap32 (wrap32 (wrap32 (rc.top + h) + h) + h) + h) + h) + h)⟩]
         remaining := ⟨rc.left, rc.top, wrap32 (wrap32 (rc.right - w) - w), rc.bottom⟩ }) := by
  rfl

/-! ## The 32-bit computation agrees with the exact one while in range -/

/-- Reduction leaves a value of the range as it is. -/
theorem wrap32_of_range {i : Int} (h1 : -2147483648 ≤ i) (h2 : i ≤ 2147483647) :
    wrap32 i = i := by
  unfold wrap32; omega

/-- Reduction of a summand before the sum is reduced changes nothing. -/
theorem wrap32_add_wrap32 (a b : Int) : wrap32 (a + wrap32 b) = wrap32 (a + b) := by
  unfold wrap32; omega

/-- While the call stays inside the 32-bit `int`, the 32-bit computation
returns what the exact one returns. -/
theorem Calculate32_eq_Calculate (chr : ℚ) (rc : RECT) (g : Geometry) (hg : g < 9)
    (h : NoOverflow chr rc g) : Calculate32 chr rc g = Calculate chr rc g := by
  obtain ⟨hrc, -, -, hW, hH, hl⟩ := h
  simp only [RECT.inInt32, inInt32] at hrc hW hH
  interval_cases g
  · obtain ⟨hcw, hch, hrem, htile⟩ := hl _ (Calculate_ibTop4Bottom4 chr rc)
    have t0 := htile 0 (show (0 : Nat) < 8 by decide) _ rfl
    have t1 := htile 1 (show (1 : Nat) < 8 by decide) _ rfl
    have t2 := htile 2 (show (2 : Nat) < 8 by decide) _ rfl
    have t3 := htile 3 (show (3 : Nat) < 8 by decide) _ rfl
    have t4 := htile 4 (show (4 : Nat) < 8 by decide) _ rfl
    have t5 := htile 5 (show (5 : Nat) < 8 by decide) _ rfl
    have t6 := htile 6 (show (6 : Nat) < 8 by decide) _ rfl
    have t7 := htile 7 (show (7 : Nat) < 8 by decide) _ rfl
    simp only [RECT.inInt32, inInt32] at hcw hch hrem t0 t1 t2 t3 t4 t5 t6 t7
    rw [Calculate32_ibTop4Bottom4, Calculate_ibTop4Bottom4]
    simp (disch := omega) only [wrap32_add_wrap32, wrap32_of_range]
  · obtain ⟨hcw, hch, hrem, htile⟩ := hl _ (Calculate_ibBottom8 chr rc)
    have t0 := htile 0 (show (0 : Nat) < 8 by decide) _ rfl
    have t1 := htile 1 (show (1 : Nat) < 8 by decide) _ rfl
    have t2 := htile 2 (show (2 : Nat) < 8 by decide) _ rfl
    have t3 := htile 3 (show (3 : Nat) < 8 by decide) _ rfl
    have t4 := htile 4 (show (4 : Nat) < 8 by decide) _ rfl
    have t5 := htile 5 (show (5 : Nat) < 8 by decide) _ rfl
    have t6 := htile 6 (show (6 : Nat) < 8 by decide) _ rfl
    have t7 := htile 7 (show (7 : Nat) < 8 by decide) _ rfl
    simp only [RECT.inInt32, inInt32] at hcw hch hrem t0 t1 t2 t3 t4 t5 t6 t7
    rw [Calculate32_ibBottom8, Calculate_ibBottom8]
    simp (disch := omega) only [wrap32_add_wrap32, wrap32_of_range]
  · obtain ⟨hcw, hch, hrem, htile⟩ := hl _ (Calculate_ibTop8 chr rc)
    have t0 := htile 0 (show (0 : Nat) < 8 by decide) _ rfl
    have t1 := htile 1 (show (1 : Nat) < 8 by decide) _ rfl
    have t2 := htile 2 (show (2 : Nat) < 8 by decide) _ rfl
    have t3 := htile 3 (show (3 : Nat) < 8 by decide) _ rfl
    have t4 := htile 4 (show (4 : Nat) < 8 by decide) _ rfl
    have t5 := htile 5 (show (5 : Nat) < 8 by decide) _ rfl
    have t6 := htile 6 (show (6 : Nat) < 8 by decide) _ rfl
    have t7 := htile 7 (show (7 : Nat) < 8 by decide) _ rfl
    simp only [RECT.inInt32, inInt32] at hcw hch hrem t0 t1 t2 t3 t4 t5 t6 t7
    rw [Calculate32_ibTop8, Calculate_ibTop8]
    simp (disch := omega) only [wrap32_add_wrap32, wrap32_of_range]
  · obtain ⟨hcw, hch, hrem, htile⟩ := hl _ (Calculate_ibLeft4Right4 chr rc)
    have t0 := htile 0 (show (0 : Nat) < 8 by decide) _ rfl
    have t1 := htile 1 (show (1 : Nat) < 8 by decide) _ rfl
    have t2 := htile 2 (show (2 : Nat) < 8 by decide) _ rfl
    have t3 := htile 3 (show (3 : Nat) < 8 by decide) _ rfl
    have t4 := htile 4 (show (4 : Nat) < 8 by decide) _ rfl
    have t5 := htile 5 (show (5 : Nat) < 8 by decide) _ rfl
    have t6 := htile 6 (show (6 : Nat) < 8 by decide) _ rfl
    have t7 := htile 7 (show (7 : Nat) < 8 by decide) _ rfl
    simp only [RECT.inInt32, inInt32] at hcw hch hrem t0 t1 t2 t3 t4 t5 t6 t7
    rw [Calculate32_ibLeft4Right4, Calculate_ibLeft4Right4]
    simp (disch := omega) only [wrap32_add_wrap32, wrap32_of_range]
  · obtain ⟨hcw, hch, hrem, htile⟩ := hl _ (Calculate_ibLeft8 chr rc)
    have t0 := htile 0 (show (0 : Nat) < 8 by decide) _ rfl
    have t1 := htile 1 (show (1 : Nat) < 8 by decide) _ rfl
    have t2 := htile 2 (show (2 : Nat) < 8 by decide) _ rfl
    have t3 := htile 3 (show (3 : Nat) < 8 by decide) _ rfl
    have t4 := htile 4 (show (4 : Nat) < 8 by decide) _ rfl
    have t5 := htile 5 (show (5 : Nat) < 8 by decide) _ rfl
    have t6 := htile 6 (show (6 : Nat) < 8 by decide) _ rfl
    have t7 := htile 7 (show (7 : Nat) < 8 by decide) _ rfl
    simp only [RECT.inInt32, inInt32] at hcw hch hrem t0 t1 t2 t3 t4 t5 t6 t7
    rw [Calculate32_ibLeft8, Calculate_ibLeft8]
    simp (disch := omega) only [wrap32_add_wrap32, wrap32_of_range]
  · obtain ⟨hcw, hch, hrem, htile⟩ := hl _ (Calculate_ibRight8 chr rc)
    have t0 := htile 0 (show (0 : Nat) < 8 by decide) _ rfl
    have t1 := htile 1 (show (1 : Nat) < 8 by decide) _ rfl
    have t2 := htile 2 (show (2 : Nat) < 8 by decide) _ rfl
    have t3 := htile 3 (show (3 : Nat) < 8 by decide) _ rfl
    have t4 := htile 4 (show (4 : Nat) < 8 by decide) _ rfl
    have t5 := htile 5 (show (5 : Nat) < 8 by decide) _ rfl
    have t6 := htile 6 (show (6 : Nat) < 8 by decide) _ rfl
    have t7 := htile 7 (show (7 : Nat) < 8 by decide) _ rfl
    simp only [RECT.inInt32, inInt32] at hcw hch hrem t0 t1 t2 t3 t4 t5 t6 t7
    rw [Calculate32_ibRight8, Calculate_ibRight8]
    simp (disch := omega) only [wrap32_add_wrap32, wrap32_of_range]
  · obtain ⟨hcw, hch, hrem, htile⟩ := hl _ (Calculate_ibGNav chr rc)
    have t0 := htile 0 (show (0 : Nat) < 9 by decide) _ rfl
    have t1 := htile 1 (show (1 : Nat) < 9 by decide) _ rfl
    have t2 := htile 2 (show (2 : Nat) < 9 by decide) _ rfl
    have t3 := htile 3 (show (3 : Nat) < 9 by decide) _ rfl
    have t4 := htile 4 (show (4 : Nat) < 9 by decide) _ rfl
    have t5 := htile 5 (show (5 : Nat) < 9 by decide) _ rfl
    have t6 := htile 6 (show (6 : Nat) < 9 by decide) _ rfl
    have t7 := htile 7 (show (7 : Nat) < 9 by decide) _ rfl
    have t8 := htile 8 (show (8 : Nat) < 9 by decide) _ rfl
    simp only [RECT.inInt32, inInt32] at hcw hch hrem t0 t1 t2 t3 t4 t5 t6 t7 t8
    rw [Calculate32_ibGNav, Calculate_ibGNav]
    simp (disch := omega) only [wrap32_add_wrap32, wrap32_of_range]
  · obtain ⟨hcw, hch, hrem, htile⟩ := hl _ (Calculate_ibSquare chr rc)
    have t0 := htile 0 (show (0 : Nat) < 5 by decide) _ rfl
    have t1 := htile 1 (show (1 : Nat) < 5 by decide) _ rfl
    have t2 := htile 2 (show (2 : Nat) < 5 by decide) _ rfl
    have t3 := htile 3 (show (3 : Nat) < 5 by decide) _ rfl
    have t4 := htile 4 (show (4 : Nat) < 5 by decide) _ rfl
    simp only [RECT.inInt32, inInt32] at hcw hch hrem t0 t1 t2 t3 t4
    rw [Calculate32_ibSquare, Calculate_ibSquare]
    simp (disch := omega) only [wrap32_add_wrap32, wrap32_of_range]
  · obtain ⟨hcw, hch, hrem, htile⟩ := hl _ (Calculate_ibRight12 chr rc)
    have t0 := htile 0 (show (0 : Nat) < 12 by decide) _ rfl
    have t1 := htile 1 (show (1 : Nat) < 12 by decide) _ rfl
    have t2 := htile 2 (show (2 : Nat) < 12 by decide) _ rfl
    have t3 := htile 3 (show (3 : Nat) < 12 by decide) _ rfl
    have t4 := htile 4 (show (4 : Nat) < 12 by decide) _ rfl
    have t5 := htile 5 (show (5 : Nat) < 12 by decide) _ rfl
    have t6 := htile 6 (show (6 : Nat) < 12 by decide) _ rfl
    have t7 := htile 7 (show (7 : Nat) < 12 by decide) _ rfl
    have t8 := htile 8 (show (8 : Nat) < 12 by decide) _ rfl
    have t9 := htile 9 (show (9 : Nat) < 12 by decide) _ rfl
    have t10 := htile 10 (show (10 : Nat) < 12 by decide) _ rfl
    have t11 := htile 11 (show (11 : Nat) < 12 by decide) _ rfl
    simp only [RECT.inInt32, inInt32] at hcw hch hrem t0 t1 t2 t3 t4 t5 t6 t7 t8 t9 t10 t11
    rw [Calculate32_ibRight12, Calculate_ibRight12]
    simp (disch := omega) only [wrap32_add_wrap32, wrap32_of_range]

/-- The tile width of `ibGNav` and `ibRight12` for a height of 600, in 32-bit
`int`, is 144. -/
theorem aspect_width32_600 :
    truncate ((((wrap32 ((600 : Int) - 0)).tdiv 6 : Int) : ℚ) * 1.44) = 144 := by
  have e : (wrap32 ((600 : Int) - 0)).tdiv 6 = 100 := by decide
  rw [e]
  norm_num [truncate]

/-- The tile height of `ibGNav` and `ibRight12` for a height of 600, in 32-bit
`int`, is 100. -/
theorem aspect_height32_600 : (wrap32 ((600 : Int) - 0)).tdiv 6 = 100 := by
  decide

/-- On the rectangle `(0, 0, 800, 600)` with a ratio of 7.4 the call on
`ibGNav` stays inside the 32-bit `int`. -/
theorem NoOverflow_ibGNav_800_600 : NoOverflow (37 / 5) ⟨0, 0, 800, 600⟩ ibGNav := by
  refine ⟨by norm_num [RECT.inInt32, inInt32], by norm_num, by norm_num,
    by norm_num [inInt32], by norm_num [inInt32], ?_⟩
  intro layout hl
  rw [Calculate_ibGNav] at hl
  injection hl with hl
  subst hl
  have e := aspect_width_600_sub
  have eh : ((600 : Int) - 0).tdiv 6 = 100 := by decide
  simp only [e]
  simp only [eh]
  refine ⟨by norm_num [inInt32], by norm_num [inInt32],
    by norm_num [RECT.inInt32, inInt32], ?_⟩
  intro i hi t ht
  simp only at hi
  interval_cases i <;> simp only [Layout.tile, List.getD_cons_zero, List.getD_cons_succ,
    Option.some.injEq] at ht <;> subst ht <;> norm_num [RECT.inInt32, inInt32]

/-! ## Tiles and the remaining rectangle in 32-bit `int` -/

/-- C3, counterexample: on the rectangle `(-2147483648, 0, -2147483448, 600)`,
of width 200 and height 600, at the smallest `int`, `Calculate` on `ibRight12`
has tiles 144 wide; the right column starts at `-2147483592`, the left edge
of the column left of it passes the smallest `int` and comes back as
`2147483560`, which becomes the right edge of the remaining rectangle; tile 6,
`(-2147483592, 0, -2147483448, 100)`, lies in that remaining rectangle. -/
theorem Calculate32_tile_in_remaining :
    ∃ layout, Calculate32 (37 / 5) ⟨-2147483648, 0, -2147483448, 600⟩ ibRight12 = .ok layout ∧
      6 < layout.count ∧
      layout.tile 6 = some ⟨-2147483592, 0, -2147483448, 100⟩ ∧
      layout.remaining = ⟨-2147483648, 0, 2147483560, 600⟩ ∧
      RECT.overlaps ⟨-2147483592, 0, -2147483448, 100⟩ ⟨-2147483648, 0, 2147483560, 600⟩ := by
  have e := aspect_width32_600
  have eh := aspect_height32_600
  refine ⟨_, Calculate32_ibRight12 _ _, by decide, ?_, ?_, ?_⟩
  · simp only [e]
    simp only [eh]
    decide
  · simp only [e]
    decide
  · exact ⟨-2147483592, 0, by norm_num [RECT.contains], by norm_num [RECT.contains]⟩

/-- C3, amended: for every template and every rectangle with positive width
and height, when the call stays inside the 32-bit `int` (`NoOverflow`), each
of the `count` tiles of `Calculate` is written and shares no pixel with the
remaining rectangle. -/
theorem Calculate32_tiles_disjoint_remaining (chr : ℚ) (rc : RECT) (g : Geometry)
    (hg : g < 9) (_hw : rc.left < rc.right) (_hh : rc.top < rc.bottom)
    (h : NoOverflow chr rc g) :
    ∃ layout, Calculate32 chr rc g = .ok layout ∧
      ∀ i, i < layout.count →
        ∃ t, layout.tile i = some t ∧ ¬ t.overlaps layout.remaining := by
  rw [Calculate32_eq_Calculate chr rc g hg h]
  exact Calculate_disjoint_aux chr rc g hg

/-- Witness of C3 amended: `ibGNav` on the rectangle `(0, 0, 800, 600)` with a
ratio of 7.4. -/
theorem Calculate32_tiles_disjoint_remaining_witness :
    ∃ layout, Calculate32 (37 / 5) ⟨0, 0, 800, 600⟩ ibGNav = .ok layout ∧
      ∀ i, i < layout.count →
        ∃ t, layout.tile i = some t ∧ ¬ t.overlaps layout.remaining :=
  Calculate32_tiles_disjoint_remaining (37 / 5) ⟨0, 0, 800, 600⟩ ibGNav
    (by decide) (by decide) (by decide) NoOverflow_ibGNav_800_600

/-- With 32-bit `int` too, `Calculate` on `ibGNav` returns on the rectangle
`(0, 0, 10, 600)` the remaining rectangle `(0, 0, -278, 600)`, whose right
edge is left of its left edge; no value leaves the `int` range there. -/
theorem Calculate32_remaining_inverted :
    ∃ layout, Calculate32 (37 / 5) ⟨0, 0, 10, 600⟩ ibGNav = .ok layout ∧
      layout.remaining = ⟨0, 0, -278, 600⟩ ∧
      ¬ layout.remaining.left ≤ layout.remaining.right := by
  have e := aspect_width32_600
  refine ⟨_, Calculate32_ibGNav _ _, ?_, ?_⟩
  · simp only [e]
    decide
  · simp only [e]
    decide

/-- C17, amended: for every template and every rectangle with positive width
and height, with a positive `CONTROLHEIGHTRATIO`, when the call stays inside
the 32-bit `int` (`NoOverflow`), every tile of `Calculate` has `left <= right`
and `top <= bottom`; the remaining rectangle has them too when
`CONTROLHEIGHTRATIO` is at least 2.6 and, for `ibGNav` and `ibRight12`, two
tile widths do not exceed the width of the rectangle. -/
theorem Calculate32_rect_invariant (chr : ℚ) (hchr : 0 < chr) (rc : RECT) (g : Geometry)
    (hg : g < 9) (hw : rc.left < rc.right) (hh : rc.top < rc.bottom)
    (h : NoOverflow chr rc g) :
    ∃ layout, Calculate32 chr rc g = .ok layout ∧
      (∀ i, i < layout.count →
        ∃ t, layout.tile i = some t ∧ t.left ≤ t.right ∧ t.top ≤ t.bottom) ∧
      (13 / 5 ≤ chr →
        (g = ibGNav ∨ g = ibRight12 →
          2 * truncate ((((rc.bottom - rc.top).tdiv 6 : Int) : ℚ) * 1.44) ≤
            rc.right - rc.left) →
        layout.remaining.left ≤ layout.remaining.right ∧
          layout.remaining.top ≤ layout.remaining.bottom) := by
  rw [Calculate32_eq_Calculate chr rc g hg h]
  exact Calculate_ordered_aux chr hchr rc g hg hw hh

/-- Witness of C17 amended: `ibGNav` on the rectangle `(0, 0, 800, 600)` with a
ratio of 7.4; two tile widths, 288, fit in the width, and the remaining
rectangle has its edges in order. -/
theorem Calculate32_rect_invariant_witness :
    ∃ layout, Calculate32 (37 / 5) ⟨0, 0, 800, 600⟩ ibGNav = .ok layout ∧
      (∀ i, i < layout.count →
        ∃ t, layout.tile i = some t ∧ t.left ≤ t.right ∧ t.top ≤ t.bottom) ∧
      layout.remaining.left ≤ layout.remaining.right ∧
      layout.remaining.top ≤ layout.remaining.bottom := by
  obtain ⟨layout, hok, htiles, hrem⟩ :=
    Calculate32_rect_invariant (37 / 5) (by norm_num) ⟨0, 0, 800, 600⟩ ibGNav
      (by decide) (by decide) (by decide) NoOverflow_ibGNav_800_600
  refine ⟨layout, hok, htiles, hrem (by norm_num) (fun _ => ?_)⟩
  have e := aspect_width_600_sub
  simp only [e]
  decide

end InfoBoxLayout
